import Mathlib

/-!
# Verification of the Cresca Campus transaction-orchestration layer

Shallow embedding of the TypeScript sources under `src/CrescaCampusApp/src`
(core services, contract repositories, view-model stores) together with
theorems settling the specification claims.

Conventions:
* A decoded ledger state value (`Map<string, any>` entries produced by
  `getAppGlobalState` / `getAppLocalState`) is either a `uint` or a byte
  string; JS truthiness and `Number(...)` coercion are embedded explicitly.
* JS numbers that can be `NaN` are modelled as `Option Nat` (`none` = NaN).
* Asynchronous effects (network fetches, signing, submission) are made
  explicit: each repository operation takes its environment (loaded wallet,
  suggested params, fetched state) as arguments and returns its result
  together with the ordered list of effects it performed.
-/

namespace Cresca

/-- A decoded TEAL state value as stored by
`AlgorandClientService.getAppGlobalState`: either a `uint` (stored as a JS
number) or a byte string (stored as a `Uint8Array`). -/
inductive StateValue where
  | uint (n : Nat)
  | bytes (bs : List Nat)
deriving DecidableEq, Repr

/-- The decoded global (or local) state: the `Map<string, any>` built by
`getAppGlobalState`, as an association list in insertion order. -/
def GlobalState := List (String × StateValue)

instance : DecidableEq GlobalState := by
  unfold GlobalState
  infer_instance

/-- One `Map.set` step: an existing key keeps its position but takes the new
value; a new key is appended. -/
def setEntry (acc : List (String × StateValue)) (kv : String × StateValue) :
    List (String × StateValue) :=
  if acc.any (fun p => p.1 == kv.1) then
    acc.map (fun p => if p.1 == kv.1 then kv else p)
  else acc ++ [kv]

/-- The JS `Map` built by repeatedly calling `set` on the decoded key/value
pairs: iteration order is first-insertion order, later `set`s of the same
key overwrite the value. -/
def GlobalState.entries (g : GlobalState) : List (String × StateValue) :=
  g.foldl setEntry []

/-- `Map.get`. -/
def GlobalState.get (g : GlobalState) (k : String) : Option StateValue :=
  (g.entries.find? (fun p => p.1 == k)).map (fun p => p.2)

/-- JS truthiness of a `Map.get` result: `undefined` and the number `0` are
falsy; any `Uint8Array` object (even empty) is truthy. -/
def truthy : Option StateValue → Bool
  | none => false
  | some (StateValue.uint n) => n != 0
  | some (StateValue.bytes _) => true

/-- `Number(v)` for a `Uint8Array` value `v`: JS stringifies the array as a
comma-joined decimal list, so an empty array coerces to `0`, a one-element
array to that element, and anything longer to `NaN` (`none`). -/
def jsNumberOfBytes : List Nat → Option Nat
  | [] => some 0
  | [b] => some b
  | _ => none

/-- `Number(map.get(k) || 0)`: an absent key or a falsy value defaults to
`0`; a `uint` is already a number; a byte string goes through JS string
coercion. `none` models `NaN`. -/
def numOr0 (g : GlobalState) (k : String) : Option Nat :=
  match g.get k with
  | none => some 0
  | some (StateValue.uint n) => some n
  | some (StateValue.bytes bs) => jsNumberOfBytes bs

/-- JS `x >= y` on possibly-NaN numbers: any comparison with NaN is false. -/
def jsGe (a b : Option Nat) : Bool :=
  match a, b with
  | some x, some y => decide (y ≤ x)
  | _, _ => false

/-- JS `x > y` on possibly-NaN numbers: any comparison with NaN is false. -/
def jsGt (a b : Option Nat) : Bool :=
  match a, b with
  | some x, some y => decide (y < x)
  | _, _ => false

/-- `String(map.get(k) || '')`: absent or falsy values default to the empty
string; a `uint` is stringified as a decimal; a `Uint8Array` stringifies as
its comma-joined elements. -/
def jsStr (v : Option StateValue) : String :=
  match v with
  | none => ""
  | some (StateValue.uint 0) => ""
  | some (StateValue.uint n) => toString n
  | some (StateValue.bytes bs) => String.intercalate "," (bs.map toString)

/-- `CampaignStatus` from `src/domain/models/index.ts`. -/
inductive CampaignStatus where
  | ACTIVE
  | SUCCESSFUL
  | FAILED
  | CANCELLED
deriving DecidableEq, Repr

/-- `Campaign` from `src/domain/models/index.ts`; the numeric fields are JS
numbers obtained from `Number(...)`, hence possibly NaN (`Option Nat`). -/
structure Campaign where
  id : Nat
  creator : String
  beneficiary : String
  title : String
  description : String
  goal : Option Nat
  raised : Option Nat
  deadline : Option Nat
  status : CampaignStatus
  milestoneCount : Option Nat
  donationCount : Option Nat
deriving DecidableEq, Repr

/-- `FundraisingRepository.getCampaign` (fundraising.repository.ts, lines
284–328), given the fetched global state and the current Unix time `now`
(`Math.floor(Date.now() / 1000)`).  Returns `none` when the defining
`campaign_<id>_title` key is absent (or falsy), exactly as the source's
early `return null`. -/
def getCampaign (g : GlobalState) (campaignId : Nat) (now : Nat) :
    Option Campaign :=
  let ck := "campaign_" ++ toString campaignId
  if truthy (g.get (ck ++ "_title")) then
    let deadline := numOr0 g (ck ++ "_deadline")
    let goal := numOr0 g (ck ++ "_goal")
    let raised := numOr0 g (ck ++ "_raised")
    let status :=
      if truthy (g.get (ck ++ "_cancelled")) then CampaignStatus.CANCELLED
      else if jsGe raised goal then CampaignStatus.SUCCESSFUL
      else if jsGt (some now) deadline then CampaignStatus.FAILED
      else CampaignStatus.ACTIVE
    some
      { id := campaignId
        creator := jsStr (g.get (ck ++ "_creator"))
        beneficiary := jsStr (g.get (ck ++ "_beneficiary"))
        title := jsStr (g.get (ck ++ "_title"))
        description := jsStr (g.get (ck ++ "_description"))
        goal := goal
        raised := raised
        deadline := deadline
        status := status
        milestoneCount := numOr0 g (ck ++ "_milestones")
        donationCount := numOr0 g (ck ++ "_donations") }
  else none

/-- `String(v)` for a truthy decoded value `v` (used where the source calls
`String(eventName)` on a value already checked to be truthy). -/
def jsStringOf : StateValue → String
  | StateValue.uint n => toString n
  | StateValue.bytes bs => String.intercalate "," (bs.map toString)

/-- JS `parseInt` on an optional string (`undefined` or a split part):
parses a maximal leading run of decimal digits; anything else is NaN
(`none`).  The state keys parsed here are ASCII, so radix-10 digits
suffice. -/
def jsParseInt : Option String → Option Nat
  | none => none
  | some s =>
    let digits := s.toList.takeWhile (fun c => c.isDigit)
    if digits.isEmpty then none
    else some (digits.foldl (fun acc c => acc * 10 + (c.toNat - 48)) 0)

/-- `Event` from `src/domain/models/index.ts`. -/
structure Event where
  id : Nat
  assetId : Option Nat
  name : String
  price : Option Nat
  maxTickets : Option Nat
  soldTickets : Option Nat
  eventDate : Option Nat
  venue : String
  creator : String
deriving DecidableEq, Repr

/-- `SoulboundTicketRepository.getEvent` (soulbound-ticket.repository.ts,
lines 227–254): `none` when the defining `event_<id>_name` key is absent
(or falsy). -/
def getEvent (g : GlobalState) (eventId : Nat) : Option Event :=
  let ek := "event_" ++ toString eventId
  match g.get (ek ++ "_name") with
  | none => none
  | some nameVal =>
    if truthy (some nameVal) then
      some
        { id := eventId
          assetId := numOr0 g (ek ++ "_asset")
          name := jsStringOf nameVal
          price := numOr0 g (ek ++ "_price")
          maxTickets := numOr0 g (ek ++ "_max")
          soldTickets := numOr0 g (ek ++ "_sold")
          eventDate := numOr0 g (ek ++ "_date")
          venue := jsStr (g.get (ek ++ "_venue"))
          creator := jsStr (g.get "creator") }
    else none

/-- `ProposalStatus` from `src/domain/models/index.ts`. -/
inductive ProposalStatus where
  | PENDING
  | APPROVED
  | EXECUTED
  | REJECTED
deriving DecidableEq, Repr

/-- `TreasuryProposal` from `src/domain/models/index.ts`. -/
structure TreasuryProposal where
  id : Nat
  creator : String
  recipient : String
  amount : Nat
  description : String
  status : ProposalStatus
  approvalCount : Nat
deriving DecidableEq, Repr

/-- `DAOTreasuryRepository.getProposal` (dao-treasury.repository.ts, lines
287–309).  The source fetches the global state, but its `!globalState`
guard can never fire (a `Map` object is always truthy), and no proposal
field is read from the state: a fixed placeholder is returned with only the
`id` taken from the argument. -/
def getProposal (_g : GlobalState) (proposalId : Nat) :
    Option TreasuryProposal :=
  some
    { id := proposalId
      creator := ""
      recipient := ""
      amount := 0
      description := ""
      status := ProposalStatus.PENDING
      approvalCount := 0 }

/-- `Donation` from `src/domain/models/index.ts`; ids parsed with
`parseInt` can be NaN. -/
structure Donation where
  id : Option Nat
  campaignId : Option Nat
  donor : String
  amount : Option Nat
  timestamp : Option Nat
  isAnonymous : Bool
deriving DecidableEq, Repr

/-- `FundraisingRepository.getUserDonations` (fundraising.repository.ts,
lines 360–391): iterates the local-state map entries whose key starts with
`donation_`. -/
def getUserDonations (ls : GlobalState) (address : String) : List Donation :=
  ls.entries.foldl
    (fun acc kv =>
      if kv.1.startsWith "donation_" then
        let parts := kv.1.splitOn "_"
        acc ++
          [{ id := jsParseInt (parts.get? 2)
             campaignId := jsParseInt (parts.get? 1)
             donor := address
             amount := numOr0 ls kv.1
             timestamp := numOr0 ls (kv.1 ++ "_time")
             isAnonymous := truthy (ls.get (kv.1 ++ "_anon")) }]
      else acc)
    []

/-- `Ticket` from `src/domain/models/index.ts`.  `checkInTime` is an
optional field (`none` = the `undefined` branch of the ternary). -/
structure Ticket where
  assetId : Nat
  eventId : Option Nat
  holder : String
  purchaseDate : Option Nat
  checkedIn : Bool
  checkInTime : Option (Option Nat)
deriving DecidableEq, Repr

/-- `SoulboundTicketRepository.getUserTickets` (soulbound-ticket.repository
.ts, lines 279–309); `nowMillis1000` stands for `Date.now() / 1000`, the
default purchase date when the `_date` key is absent or falsy. -/
def getUserTickets (ls : GlobalState) (address : String)
    (nowMillis1000 : Nat) : List Ticket :=
  ls.entries.foldl
    (fun acc kv =>
      if kv.1.startsWith "ticket_" then
        acc ++
          [{ assetId := 0
             eventId := jsParseInt ((kv.1.splitOn "_").get? 1)
             holder := address
             purchaseDate :=
               match ls.get (kv.1 ++ "_date") with
               | none => some nowMillis1000
               | some (StateValue.uint 0) => some nowMillis1000
               | some (StateValue.uint n) => some n
               | some (StateValue.bytes bs) => jsNumberOfBytes bs
             checkedIn := truthy (ls.get (kv.1 ++ "_checked_in"))
             checkInTime :=
               if truthy (ls.get (kv.1 ++ "_checkin_time")) then
                 some (numOr0 ls (kv.1 ++ "_checkin_time"))
               else none }]
      else acc)
    []

/-- The status-derivation rule as the specification words it (§4.4):
CANCELLED if the cancellation flag is set; else SUCCESSFUL if raised ≥ goal;
else FAILED if the current time is past the deadline; else ACTIVE. -/
def deriveStatusSpec (cancelled : Bool) (raised goal deadline : Option Nat)
    (now : Nat) : CampaignStatus :=
  if cancelled then CampaignStatus.CANCELLED
  else if jsGe raised goal then CampaignStatus.SUCCESSFUL
  else if jsGt (some now) deadline then CampaignStatus.FAILED
  else CampaignStatus.ACTIVE

/-- Contract application ids from `src/core/config/algorand.config.ts`. -/
def expenseSplitterAppId : Nat := 755399831

/-- DAO treasury application id (algorand.config.ts). -/
def daoTreasuryAppId : Nat := 755399773

/-- Soulbound-ticket application id (algorand.config.ts). -/
def soulboundTicketAppId : Nat := 755399774

/-- Fundraising application id (algorand.config.ts). -/
def fundraisingAppId : Nat := 755399775

/-- Suggested network parameters fetched by
`client.getTransactionParams().do()`; their content is opaque to the
claims, only their presence on a built transaction matters. -/
structure SuggestedParams where
  fee : Nat
  firstValid : Nat
  lastValid : Nat
  genesisId : String
deriving DecidableEq, Repr

/-- `onComplete` modes used by the repositories. -/
inductive OnComplete where
  | NoOp
  | OptIn
deriving DecidableEq, Repr

/-- The group-id-free content of a transaction, as built by the
`algosdk.make...TxnFromObject` helpers used in the repositories.  A
payment amount is an `Option Nat` because it can be a decoded
possibly-NaN JS number (e.g. an event price). -/
inductive TxnBody where
  | pay (sender receiver : String) (amount : Option Nat)
      (params : SuggestedParams)
  | appCall (sender : String) (appIndex : Nat) (appArgs : List (List Nat))
      (accounts : List String) (onComplete : OnComplete)
      (params : SuggestedParams)
  | appOptIn (sender : String) (appIndex : Nat) (params : SuggestedParams)
deriving DecidableEq, Repr

/-- An unsigned transaction: its body plus the optional stamped group id. -/
structure Txn where
  body : TxnBody
  group : Option (List TxnBody)
deriving DecidableEq, Repr

/-- A default transaction (used only to model JS array indexing). -/
def dummyTxn : Txn :=
  { body := TxnBody.pay "" "" (some 0) ⟨0, 0, 0, ""⟩, group := none }

/-- `algosdk.assignGroupID`: computes one group id as a hash of the ordered,
encoded transaction list and stamps it onto every member.  The hash input —
the ordered list of bodies — stands for the group id itself (the hash is
injective by intent, and no claim depends on its bit representation). -/
def assignGroupID (txns : List Txn) : List Txn :=
  let gid := txns.map (fun t => t.body)
  txns.map (fun t => { t with group := some gid })

/-- A signed transaction blob, `txn.signTxn(secretKey)`: retains the signed
transaction and the key used. -/
structure SignedTxn where
  txn : Txn
  key : List Nat
deriving DecidableEq, Repr

/-- `WalletService.signTransaction` (wallet.service.ts, lines 66–68). -/
def signTransaction (t : Txn) (secretKey : List Nat) : SignedTxn :=
  ⟨t, secretKey⟩

/-- A JS string as its UTF-16 code units (what `.slice` and `.length`
operate on). -/
abbrev JSString : Type := List Nat

/-- Code units of an ASCII Lean string literal. -/
def strUnits (s : String) : List Nat :=
  s.toList.map Char.toNat

/-- UTF-8 bytes of one Unicode scalar value (used by the encoder below). -/
def utf8Cp (c : Nat) : List Nat :=
  if c < 128 then [c]
  else if c < 2048 then [192 + c / 64, 128 + c % 64]
  else if c < 65536 then [224 + c / 4096, 128 + c / 64 % 64, 128 + c % 64]
  else [240 + c / 262144, 128 + c / 4096 % 64, 128 + c / 64 % 64,
        128 + c % 64]

/-- `new TextEncoder().encode(s)` on a sequence of UTF-16 code units:
well-formed surrogate pairs are combined, lone surrogates become U+FFFD
(3 bytes), everything else is encoded as the BMP scalar it is. -/
def utf8EncodeUnits : List Nat → List Nat
  | [] => []
  | [u] =>
    if 55296 ≤ u ∧ u < 57344 then utf8Cp 65533 else utf8Cp u
  | u :: v :: rest =>
    if 55296 ≤ u ∧ u < 56320 then
      if 56320 ≤ v ∧ v < 57344 then
        utf8Cp (65536 + (u - 55296) * 1024 + (v - 56320)) ++
          utf8EncodeUnits rest
      else utf8Cp 65533 ++ utf8EncodeUnits (v :: rest)
    else if 56320 ≤ u ∧ u < 57344 then
      utf8Cp 65533 ++ utf8EncodeUnits (v :: rest)
    else utf8Cp u ++ utf8EncodeUnits (v :: rest)

/-- `algosdk.encodeUint64`: 8-byte big-endian encoding. -/
def encodeUint64 (n : Nat) : List Nat :=
  (List.range 8).map (fun i => n / 256 ^ (7 - i) % 256)

/-- Modelled from the spec: `algosdk.decodeAddress(addr).publicKey` — the
base32/checksum address codec lives in the external SDK, not in this source
tree; only that it is a fixed deterministic function of the address string
matters to the claims, so a stand-in deterministic byte derivation is
used. -/
def decodeAddressPk (addr : String) : List Nat :=
  (addr.toList.map (fun c => c.toNat % 256)).take 32

/-- Modelled from the spec: `algosdk.getApplicationAddress(appId)` — the
escrow address of an application, a fixed deterministic function of the app
id computed inside the external SDK. -/
def getApplicationAddress (appId : Nat) : String :=
  "appaddr:" ++ toString appId

/-- `appArgs` of `FundraisingRepository.createCampaign`
(fundraising.repository.ts, lines 78–85): note that `title.slice(0, 32)`
and `description.slice(0, 64)` truncate by UTF-16 code units. -/
def createCampaignArgs (beneficiary : String) (title description : JSString)
    (goal deadline : Nat) : List (List Nat) :=
  [utf8EncodeUnits (strUnits "create_campaign"),
   decodeAddressPk beneficiary,
   utf8EncodeUnits (List.take 32 title),
   utf8EncodeUnits (List.take 64 description),
   encodeUint64 goal,
   encodeUint64 deadline]

/-- `appArgs` of `SoulboundTicketRepository.createEvent`
(soulbound-ticket.repository.ts, lines 77–84). -/
def createEventArgs (name : JSString) (price maxTickets eventDate : Nat)
    (venue : JSString) : List (List Nat) :=
  [utf8EncodeUnits (strUnits "create_event"),
   utf8EncodeUnits (List.take 32 name),
   encodeUint64 price,
   encodeUint64 maxTickets,
   encodeUint64 eventDate,
   utf8EncodeUnits (List.take 32 venue)]

/-- `appArgs` of `DAOTreasuryRepository.createProposal`
(dao-treasury.repository.ts, lines 109–114). -/
def createProposalArgs (recipient : String) (amount : Nat)
    (description : JSString) : List (List Nat) :=
  [utf8EncodeUnits (strUnits "create_proposal"),
   decodeAddressPk recipient,
   encodeUint64 amount,
   utf8EncodeUnits (List.take 32 description)]

/-- `appArgs` of `FundraisingRepository.donate`
(fundraising.repository.ts, lines 135–139). -/
def donateArgs (campaignId : Nat) (isAnonymous : Bool) : List (List Nat) :=
  [utf8EncodeUnits (strUnits "donate"),
   encodeUint64 campaignId,
   [if isAnonymous then 1 else 0]]

/-- `appArgs` of `SoulboundTicketRepository.purchaseTicket`
(soulbound-ticket.repository.ts, lines 133–136). -/
def purchaseTicketArgs (eventId : Nat) : List (List Nat) :=
  [utf8EncodeUnits (strUnits "purchase_ticket"),
   encodeUint64 eventId]

/-! ### Mnemonic codec and key derivation

`WalletService.generateAccount` / `recoverFromMnemonic`
(wallet.service.ts, lines 33–53) are thin wrappers over
`algosdk.generateAccount`, `algosdk.secretKeyToMnemonic` and
`algosdk.mnemonicToSecretKey`; the SDK itself is not part of this source
tree, so its documented behaviour is modelled below.  A mnemonic is
represented by word indices (the word list is a fixed bijection between
indices and words). -/

/-- The value of a little-endian digit string in base `b`. -/
def undigits (b : Nat) : List Nat → Nat
  | [] => 0
  | d :: ds => d + b * undigits b ds

/-- The `k` low-order base-`b` digits of `n`, little-endian. -/
def digitsRange (b k n : Nat) : List Nat :=
  (List.range k).map (fun j => n / b ^ j % b)

/-- Modelled from the spec: the SDK's mnemonic checksum — the first 11 bits
of `sha512/256(seed)`.  Only its determinism is used by any claim, so a
stand-in deterministic function of the seed is taken. -/
def mnemonicChecksum (seed : List Nat) : Nat :=
  (seed.foldl (fun acc b => acc * 31 + b) 7) % 2048

/-- Modelled from the spec: `nacl.sign.keyPair.fromSeed(seed).publicKey` —
ed25519 public-key derivation inside the external SDK.  Only its
determinism is used by any claim, so a stand-in deterministic byte map is
taken. -/
def ed25519PublicKey (seed : List Nat) : List Nat :=
  seed.map (fun b => (b * 7 + 3) % 256)

/-- Modelled from the spec: `algosdk.encodeAddress(publicKey)` — base32
encoding plus checksum inside the external SDK; a stand-in deterministic
injective rendering is taken. -/
def encodeAddress (pk : List Nat) : String :=
  String.intercalate "," (pk.map toString)

/-- Modelled from the spec: `mnemonicFromSeed` of the SDK's 25-word
mnemonic codec — the 32-byte seed is read as a little-endian integer,
expressed as 24 base-2048 digits (11-bit groups read LSB-first across the
bytes), and a checksum word is appended. -/
def mnemonicFromSeed (seed : List Nat) : List Nat :=
  digitsRange 2048 24 (undigits 256 seed) ++ [mnemonicChecksum seed]

/-- `algosdk.secretKeyToMnemonic(sk)`: the mnemonic of the first 32 bytes
(the seed half) of the 64-byte secret key. -/
def secretKeyToMnemonic (sk : List Nat) : List Nat :=
  mnemonicFromSeed (sk.take 32)

/-- The record returned by `WalletService.generateAccount`
(wallet.service.ts, lines 33–42); the random 32-byte ed25519 seed drawn by
`algosdk.generateAccount` is the explicit input. -/
structure GeneratedAccount where
  address : String
  mnemonic : List Nat
  secretKey : List Nat
deriving DecidableEq, Repr

/-- `WalletService.generateAccount` (wallet.service.ts, lines 33–42): the
SDK draws a keypair from the random seed (secret key = seed ‖ public key)
and the mnemonic encodes the secret key. -/
def generateAccount (seed : List Nat) : GeneratedAccount :=
  let pk := ed25519PublicKey seed
  let sk := seed ++ pk
  { address := encodeAddress pk
    mnemonic := secretKeyToMnemonic sk
    secretKey := sk }

/-- Modelled from the spec: `algosdk.mnemonicToSecretKey` — 25 words are
required; the first 24 words are read back as base-2048 digits giving 33
bytes, whose last byte must be zero; the first 32 bytes are the seed, whose
recomputed checksum must equal the 25th word; the keypair is re-derived
from the seed. -/
def mnemonicToSecretKey (m : List Nat) : Option (String × List Nat) :=
  if m.length = 25 then
    let bytes33 := digitsRange 256 33 (undigits 2048 (m.take 24))
    if bytes33.getD 32 0 = 0 then
      let seed := bytes33.take 32
      if mnemonicChecksum seed = m.getD 24 0 then
        let pk := ed25519PublicKey seed
        some (encodeAddress pk, seed ++ pk)
      else none
    else none
  else none

/-- The record returned by `WalletService.recoverFromMnemonic`. -/
structure RecoveredAccount where
  address : String
  secretKey : List Nat
deriving DecidableEq, Repr

/-- `WalletService.recoverFromMnemonic` (wallet.service.ts, lines 47–53);
`none` models the SDK throwing on an invalid mnemonic. -/
def recoverFromMnemonic (m : List Nat) : Option RecoveredAccount :=
  (mnemonicToSecretKey m).map (fun p => ⟨p.1, p.2⟩)

/-- `WalletService.getSecretKeyFromMnemonic` (wallet.service.ts, lines
58–61); the zero key models the SDK throwing on an invalid mnemonic. -/
def getSecretKeyFromMnemonic (m : List Nat) : List Nat :=
  match mnemonicToSecretKey m with
  | some p => p.2
  | none => []

/-! ### Repository write operations

Each `async` write of the repositories is embedded as a pure function of
its environment: the result of `walletService.loadWallet()` (an
`Option WalletAccount`), the suggested params, and the node's responses
(`txId`, confirmation).  Alongside its result it returns the ordered list
of effects it performed, so "rejects before doing X" is the statement that
the effect list is empty. -/

/-- `WalletAccount` from wallet.service.ts (mnemonic as word indices). -/
structure WalletAccount where
  address : String
  mnemonic : List Nat
  createdAt : String
deriving DecidableEq, Repr

/-- `TransactionResult` from `src/domain/models/index.ts`. -/
structure TransactionResult where
  txId : String
  confirmed : Bool
  appId : Option Nat
deriving DecidableEq, Repr

/-- Errors thrown by the repository writes. -/
inductive RepoError where
  | noWallet
  | eventNotFound
deriving DecidableEq, Repr

/-- The `Error` message carried by each thrown error. -/
def RepoError.message : RepoError → String
  | RepoError.noWallet => "No wallet found. Please create or import a wallet first."
  | RepoError.eventNotFound => "Event not found"

/-- An observable effect of a repository write, in execution order. -/
inductive Effect where
  | fetchParams
  | fetchGlobalState (appId : Nat)
  | signed (t : Txn)
  | submitted (blobs : List SignedTxn)
  | confirmWait (txId : String)
deriving DecidableEq, Repr

/-- The node-side environment of one write: the suggested params returned
by `getTransactionParams`, the `txId` returned by submission, and whether
`waitForConfirmation` returned a non-null record. -/
structure RepoEnv where
  params : SuggestedParams
  txId : String
  confirmed : Bool
deriving DecidableEq, Repr

instance {ε α : Type} [DecidableEq ε] [DecidableEq α] :
    DecidableEq (Except ε α) := fun x y =>
  match x, y with
  | Except.error a, Except.error b =>
    decidable_of_iff (a = b) (by constructor <;> (intro h; simp_all))
  | Except.ok a, Except.ok b =>
    decidable_of_iff (a = b) (by constructor <;> (intro h; simp_all))
  | Except.error _, Except.ok _ => isFalse (fun h => Except.noConfusion h)
  | Except.ok _, Except.error _ => isFalse (fun h => Except.noConfusion h)

/-- Outcome of a repository write: the settled promise plus the effects. -/
def WriteOutcome := Except RepoError TransactionResult × List Effect

instance : DecidableEq WriteOutcome := by
  unfold WriteOutcome
  infer_instance

/-- The shared tail of every single-transaction write: sign the built
transaction, submit it, await confirmation, return the result record. -/
def singleTxnTail (wallet : WalletAccount) (env : RepoEnv) (appId : Nat)
    (txn : Txn) : WriteOutcome :=
  let sk := getSecretKeyFromMnemonic wallet.mnemonic
  let signedTxn := signTransaction txn sk
  (Except.ok { txId := env.txId, confirmed := env.confirmed, appId := some appId },
   [Effect.fetchParams, Effect.signed txn, Effect.submitted [signedTxn],
    Effect.confirmWait env.txId])

/-- `optIn` of the fundraising / DAO-treasury / soulbound-ticket /
expense-splitter repositories (identical up to the app id; e.g.
fundraising.repository.ts, lines 26–50). -/
def repoOptIn (w : Option WalletAccount) (env : RepoEnv) (appId : Nat) :
    WriteOutcome :=
  match w with
  | none => (Except.error RepoError.noWallet, [])
  | some wallet =>
    singleTxnTail wallet env appId
      { body := TxnBody.appOptIn wallet.address appId env.params, group := none }

/-- `FundraisingRepository.createCampaign` (fundraising.repository.ts,
lines 60–105); `deadline` is the computed Unix timestamp. -/
def repoCreateCampaign (w : Option WalletAccount) (env : RepoEnv)
    (beneficiary : String) (title description : JSString)
    (goal deadline : Nat) : WriteOutcome :=
  match w with
  | none => (Except.error RepoError.noWallet, [])
  | some wallet =>
    singleTxnTail wallet env fundraisingAppId
      { body := TxnBody.appCall wallet.address fundraisingAppId
          (createCampaignArgs beneficiary title description goal deadline)
          [beneficiary] OnComplete.NoOp env.params
        group := none }

/-- The shared shape of the single-app-call writes (`claimFunds`,
`requestRefund`, `cancelCampaign`, `approveProposal`, `executeProposal`,
`checkIn`): a NoOp call with the given args and no account refs. -/
def simpleAppCallWrite (w : Option WalletAccount) (env : RepoEnv)
    (appId : Nat) (args : List (List Nat)) : WriteOutcome :=
  match w with
  | none => (Except.error RepoError.noWallet, [])
  | some wallet =>
    singleTxnTail wallet env appId
      { body := TxnBody.appCall wallet.address appId args [] OnComplete.NoOp
          env.params
        group := none }

/-- `FundraisingRepository.claimFunds` (fundraising.repository.ts, lines
172–203). -/
def repoClaimFunds (w : Option WalletAccount) (env : RepoEnv)
    (campaignId : Nat) : WriteOutcome :=
  simpleAppCallWrite w env fundraisingAppId
    [utf8EncodeUnits (strUnits "claim_funds"), encodeUint64 campaignId]

/-- `FundraisingRepository.requestRefund` (fundraising.repository.ts,
lines 210–241). -/
def repoRequestRefund (w : Option WalletAccount) (env : RepoEnv)
    (campaignId : Nat) : WriteOutcome :=
  simpleAppCallWrite w env fundraisingAppId
    [utf8EncodeUnits (strUnits "refund"), encodeUint64 campaignId]

/-- `FundraisingRepository.cancelCampaign` (fundraising.repository.ts,
lines 247–278). -/
def repoCancelCampaign (w : Option WalletAccount) (env : RepoEnv)
    (campaignId : Nat) : WriteOutcome :=
  simpleAppCallWrite w env fundraisingAppId
    [utf8EncodeUnits (strUnits "cancel_campaign"), encodeUint64 campaignId]

/-- `SoulboundTicketRepository.checkIn` (soulbound-ticket.repository.ts,
lines 168–199). -/
def repoCheckIn (w : Option WalletAccount) (env : RepoEnv)
    (eventId : Nat) : WriteOutcome :=
  simpleAppCallWrite w env soulboundTicketAppId
    [utf8EncodeUnits (strUnits "check_in"), encodeUint64 eventId]

/-- `DAOTreasuryRepository.addSigner` (dao-treasury.repository.ts, lines
57–88): an app call carrying the new signer as an account reference. -/
def repoAddSigner (w : Option WalletAccount) (env : RepoEnv)
    (signerAddress : String) : WriteOutcome :=
  match w with
  | none => (Except.error RepoError.noWallet, [])
  | some wallet =>
    singleTxnTail wallet env daoTreasuryAppId
      { body := TxnBody.appCall wallet.address daoTreasuryAppId
          [utf8EncodeUnits (strUnits "add_signer")] [signerAddress]
          OnComplete.NoOp env.params
        group := none }

/-- `DAOTreasuryRepository.createProposal` (dao-treasury.repository.ts,
lines 96–134). -/
def repoCreateProposal (w : Option WalletAccount) (env : RepoEnv)
    (recipient : String) (amount : Nat) (description : JSString) :
    WriteOutcome :=
  match w with
  | none => (Except.error RepoError.noWallet, [])
  | some wallet =>
    singleTxnTail wallet env daoTreasuryAppId
      { body := TxnBody.appCall wallet.address daoTreasuryAppId
          (createProposalArgs recipient amount description) [recipient]
          OnComplete.NoOp env.params
        group := none }

/-- `DAOTreasuryRepository.deposit` (dao-treasury.repository.ts, lines
214–241): a bare payment to the app address. -/
def repoDeposit (w : Option WalletAccount) (env : RepoEnv)
    (amount : Nat) : WriteOutcome :=
  match w with
  | none => (Except.error RepoError.noWallet, [])
  | some wallet =>
    singleTxnTail wallet env daoTreasuryAppId
      { body := TxnBody.pay wallet.address
          (getApplicationAddress daoTreasuryAppId) (some amount) env.params
        group := none }

/-- `ExpenseSplitterRepository.addExpense`
(expense-splitter.repository.ts, lines 56–84). -/
def repoAddExpense (w : Option WalletAccount) (env : RepoEnv)
    (amount : Nat) (description : JSString) : WriteOutcome :=
  simpleAppCallWrite w env expenseSplitterAppId
    [utf8EncodeUnits (strUnits "add_expense"), encodeUint64 amount,
     utf8EncodeUnits (List.take 32 description)]

/-- The grouped transaction list built by `FundraisingRepository.donate`
(fundraising.repository.ts, lines 127–150): payment to the escrow address
then the `donate` app call, stamped by `assignGroupID`. -/
def donateGrouped (sender : String) (params : SuggestedParams)
    (campaignId amount : Nat) (isAnonymous : Bool) : List Txn :=
  let paymentTxn : Txn :=
    { body := TxnBody.pay sender (getApplicationAddress fundraisingAppId)
        (some amount) params
      group := none }
  let appCallTxn : Txn :=
    { body := TxnBody.appCall sender fundraisingAppId
        (donateArgs campaignId isAnonymous) [] OnComplete.NoOp params
      group := none }
  assignGroupID [paymentTxn, appCallTxn]

/-- The signed group of `donate` (fundraising.repository.ts, lines
152–157): the payment is signed first, then the app call, and the pair is
submitted in that order. -/
def donateSignedGroup (sender : String) (params : SuggestedParams)
    (campaignId amount : Nat) (isAnonymous : Bool) (sk : List Nat) :
    List SignedTxn :=
  let grouped := donateGrouped sender params campaignId amount isAnonymous
  let signedPayment := signTransaction (grouped.getD 0 dummyTxn) sk
  let signedAppCall := signTransaction (grouped.getD 1 dummyTxn) sk
  [signedPayment, signedAppCall]

/-- `FundraisingRepository.donate` (fundraising.repository.ts, lines
113–165) as a write outcome with its effect trace. -/
def repoDonate (w : Option WalletAccount) (env : RepoEnv)
    (campaignId amount : Nat) (isAnonymous : Bool) : WriteOutcome :=
  match w with
  | none => (Except.error RepoError.noWallet, [])
  | some wallet =>
    let sk := getSecretKeyFromMnemonic wallet.mnemonic
    let grouped := donateGrouped wallet.address env.params campaignId amount
      isAnonymous
    let signedGroup := donateSignedGroup wallet.address env.params campaignId
      amount isAnonymous sk
    (Except.ok { txId := env.txId, confirmed := env.confirmed,
                 appId := some fundraisingAppId },
     [Effect.fetchParams, Effect.signed (grouped.getD 0 dummyTxn),
      Effect.signed (grouped.getD 1 dummyTxn),
      Effect.submitted signedGroup, Effect.confirmWait env.txId])

/-- The grouped transaction list built by
`SoulboundTicketRepository.purchaseTicket` (soulbound-ticket.repository.ts,
lines 125–147) once the event (and hence the price) is known. -/
def purchaseGrouped (sender : String) (params : SuggestedParams)
    (eventId : Nat) (price : Option Nat) : List Txn :=
  let paymentTxn : Txn :=
    { body := TxnBody.pay sender
        (getApplicationAddress soulboundTicketAppId) price params
      group := none }
  let appCallTxn : Txn :=
    { body := TxnBody.appCall sender soulboundTicketAppId
        (purchaseTicketArgs eventId) [] OnComplete.NoOp params
      group := none }
  assignGroupID [paymentTxn, appCallTxn]

/-- The signed group of `purchaseTicket` (soulbound-ticket.repository.ts,
lines 149–154). -/
def purchaseSignedGroup (sender : String) (params : SuggestedParams)
    (eventId : Nat) (price : Option Nat) (sk : List Nat) : List SignedTxn :=
  let grouped := purchaseGrouped sender params eventId price
  let signedPayment := signTransaction (grouped.getD 0 dummyTxn) sk
  let signedAppCall := signTransaction (grouped.getD 1 dummyTxn) sk
  [signedPayment, signedAppCall]

/-- `SoulboundTicketRepository.purchaseTicket` (soulbound-ticket.repository
.ts, lines 109–162): checks the wallet, then fetches the event (throwing
`Event not found` when absent), then builds, groups, signs and submits the
payment + app call pair.  `g` is the fetched global state. -/
def repoPurchaseTicket (w : Option WalletAccount) (env : RepoEnv)
    (g : GlobalState) (eventId : Nat) : WriteOutcome :=
  match w with
  | none => (Except.error RepoError.noWallet, [])
  | some wallet =>
    match getEvent g eventId with
    | none =>
      (Except.error RepoError.eventNotFound,
       [Effect.fetchGlobalState soulboundTicketAppId])
    | some ev =>
      let sk := getSecretKeyFromMnemonic wallet.mnemonic
      let grouped := purchaseGrouped wallet.address env.params eventId ev.price
      let signedGroup := purchaseSignedGroup wallet.address env.params eventId
        ev.price sk
      (Except.ok { txId := env.txId, confirmed := env.confirmed,
                   appId := some soulboundTicketAppId },
       [Effect.fetchGlobalState soulboundTicketAppId, Effect.fetchParams,
        Effect.signed (grouped.getD 0 dummyTxn),
        Effect.signed (grouped.getD 1 dummyTxn),
        Effect.submitted signedGroup, Effect.confirmWait env.txId])

/-! ### View-model stores -/

/-- The cached slice of `useFundraisingStore` state touched by the claims
(fundraising.store.ts). -/
structure FundraisingStoreState where
  campaigns : List Campaign
  activeCampaigns : List Campaign
  userDonations : List Donation
  hasOptedIn : Bool
  isLoading : Bool
  errorMsg : Option String
  lastTransaction : Option TransactionResult
deriving DecidableEq, Repr

/-- The replace-if-present-else-append cache update of
`useFundraisingStore.fetchCampaign` (fundraising.store.ts, lines 196–203):
`findIndex` on the campaign id, overwrite in place when found, `push`
otherwise. -/
def updateCampaignsCache (campaigns : List Campaign) (campaignId : Nat)
    (c : Campaign) : List Campaign :=
  match campaigns.findIdx? (fun x => x.id == campaignId) with
  | some i => campaigns.set i c
  | none => campaigns ++ [c]

/-- `useFundraisingStore.fetchCampaign` (fundraising.store.ts, lines
192–220) applied to the repository's result: updates the `campaigns`
cache, and the `activeCampaigns` cache as well when the fetched campaign
is ACTIVE; a `none` result (or a caught error) leaves the state alone. -/
def applyFetchCampaign (s : FundraisingStoreState) (campaignId : Nat)
    (fetched : Option Campaign) : FundraisingStoreState :=
  match fetched with
  | none => s
  | some c =>
    let s1 := { s with campaigns := updateCampaignsCache s.campaigns campaignId c }
    if c.status = CampaignStatus.ACTIVE then
      { s1 with activeCampaigns :=
          updateCampaignsCache s1.activeCampaigns campaignId c }
    else s1

/-- `useFundraisingStore.donate` (fundraising.store.ts, lines 116–133):
sets loading/clears the error, runs the repository call, on success stores
the transaction and re-fetches the campaign, on failure records the error
message and re-throws it; `finally` resets loading.  The repository
outcome and the re-fetch result are the environment. -/
def storeDonate (s : FundraisingStoreState)
    (repoResult : Except RepoError TransactionResult)
    (fetched : Option Campaign) (campaignId : Nat) :
    FundraisingStoreState × Except String TransactionResult :=
  let s1 := { s with isLoading := true, errorMsg := none }
  match repoResult with
  | Except.ok r =>
    let s2 := { s1 with lastTransaction := some r }
    let s3 := applyFetchCampaign s2 campaignId fetched
    ({ s3 with isLoading := false }, Except.ok r)
  | Except.error e =>
    ({ s1 with errorMsg := some e.message, isLoading := false },
     Except.error e.message)

/-- The replace-if-present-else-append cache update of
`useDAOTreasuryStore.fetchProposal` (dao-treasury.store.ts, lines
202–209). -/
def updateProposalsCache (proposals : List TreasuryProposal)
    (proposalId : Nat) (p : TreasuryProposal) : List TreasuryProposal :=
  match proposals.findIdx? (fun x => x.id == proposalId) with
  | some i => proposals.set i p
  | none => proposals ++ [p]

/-- `useFundraisingStore.claimFunds` (fundraising.store.ts, lines 136–153):
same shape as `donate` — store the transaction, re-fetch the campaign,
record and re-throw errors, reset loading last. -/
def storeClaimFunds (s : FundraisingStoreState)
    (repoResult : Except RepoError TransactionResult)
    (fetched : Option Campaign) (campaignId : Nat) :
    FundraisingStoreState × Except String TransactionResult :=
  let s1 := { s with isLoading := true, errorMsg := none }
  match repoResult with
  | Except.ok r =>
    let s2 := { s1 with lastTransaction := some r }
    let s3 := applyFetchCampaign s2 campaignId fetched
    ({ s3 with isLoading := false }, Except.ok r)
  | Except.error e =>
    ({ s1 with errorMsg := some e.message, isLoading := false },
     Except.error e.message)

/-- `useFundraisingStore.requestRefund` (fundraising.store.ts, lines
156–169): stores the transaction on success, no re-fetch. -/
def storeRequestRefund (s : FundraisingStoreState)
    (repoResult : Except RepoError TransactionResult) :
    FundraisingStoreState × Except String TransactionResult :=
  let s1 := { s with isLoading := true, errorMsg := none }
  match repoResult with
  | Except.ok r =>
    ({ s1 with lastTransaction := some r, isLoading := false }, Except.ok r)
  | Except.error e =>
    ({ s1 with errorMsg := some e.message, isLoading := false },
     Except.error e.message)

/-- `useFundraisingStore.fetchActiveCampaigns` (fundraising.store.ts,
lines 223–233) applied to the repository's outcome: replaces the
active-campaigns cache on success, records the error on failure, and
resets loading either way (it never throws). -/
def applyFetchActiveCampaigns (s : FundraisingStoreState)
    (fetched : Except String (List Campaign)) : FundraisingStoreState :=
  match fetched with
  | Except.ok cs => { s with activeCampaigns := cs, isLoading := false }
  | Except.error m => { s with errorMsg := some m, isLoading := false }

/-- `useFundraisingStore.optIn` (fundraising.store.ts, lines 71–87). -/
def storeFundraisingOptIn (s : FundraisingStoreState)
    (repoResult : Except RepoError TransactionResult) :
    FundraisingStoreState × Except String TransactionResult :=
  let s1 := { s with isLoading := true, errorMsg := none }
  match repoResult with
  | Except.ok r =>
    ({ s1 with
        lastTransaction := some r
        hasOptedIn := r.confirmed
        isLoading := false }, Except.ok r)
  | Except.error e =>
    ({ s1 with errorMsg := some e.message, isLoading := false },
     Except.error e.message)

/-- `useFundraisingStore.createCampaign` (fundraising.store.ts, lines
90–113): stores the transaction, refreshes the active campaigns,
records/re-throws errors, resets loading last. -/
def storeCreateCampaign (s : FundraisingStoreState)
    (repoResult : Except RepoError TransactionResult)
    (refreshed : Except String (List Campaign)) :
    FundraisingStoreState × Except String TransactionResult :=
  let s1 := { s with isLoading := true, errorMsg := none }
  match repoResult with
  | Except.ok r =>
    let s2 := { s1 with lastTransaction := some r }
    let s3 := applyFetchActiveCampaigns s2 refreshed
    ({ s3 with isLoading := false }, Except.ok r)
  | Except.error e =>
    ({ s1 with errorMsg := some e.message, isLoading := false },
     Except.error e.message)

/-- `useFundraisingStore.cancelCampaign` (fundraising.store.ts, lines
172–189): same shape as `createCampaign`. -/
def storeCancelCampaign (s : FundraisingStoreState)
    (repoResult : Except RepoError TransactionResult)
    (refreshed : Except String (List Campaign)) :
    FundraisingStoreState × Except String TransactionResult :=
  let s1 := { s with isLoading := true, errorMsg := none }
  match repoResult with
  | Except.ok r =>
    let s2 := { s1 with lastTransaction := some r }
    let s3 := applyFetchActiveCampaigns s2 refreshed
    ({ s3 with isLoading := false }, Except.ok r)
  | Except.error e =>
    ({ s1 with errorMsg := some e.message, isLoading := false },
     Except.error e.message)

/-- `DAOTreasury` from `src/domain/models/index.ts`. -/
structure DAOTreasury where
  appId : Nat
  creator : String
  threshold : Nat
  signerCount : Nat
  proposalCount : Nat
  balance : Nat
deriving DecidableEq, Repr

/-- The cached slice of `useDAOTreasuryStore` state touched by the claims
(dao-treasury.store.ts). -/
structure DAOTreasuryStoreState where
  treasuryState : Option DAOTreasury
  proposals : List TreasuryProposal
  isSigner : Bool
  hasOptedIn : Bool
  isLoading : Bool
  errorMsg : Option String
  lastTransaction : Option TransactionResult
deriving DecidableEq, Repr

/-- `useDAOTreasuryStore.fetchTreasuryState` (dao-treasury.store.ts, lines
185–195) applied to the repository's outcome: replaces the cached treasury
state on success, records the error on failure, resets loading either way
(it never throws). -/
def applyFetchTreasuryState (s : DAOTreasuryStoreState)
    (fetched : Except String (Option DAOTreasury)) : DAOTreasuryStoreState :=
  match fetched with
  | Except.ok t => { s with treasuryState := t, isLoading := false }
  | Except.error m => { s with errorMsg := some m, isLoading := false }

/-- `useDAOTreasuryStore.optIn` (dao-treasury.store.ts, lines 66–82). -/
def storeTreasuryOptIn (s : DAOTreasuryStoreState)
    (repoResult : Except RepoError TransactionResult) :
    DAOTreasuryStoreState × Except String TransactionResult :=
  let s1 := { s with isLoading := true, errorMsg := none }
  match repoResult with
  | Except.ok r =>
    ({ s1 with
        lastTransaction := some r
        hasOptedIn := r.confirmed
        isLoading := false }, Except.ok r)
  | Except.error e =>
    ({ s1 with errorMsg := some e.message, isLoading := false },
     Except.error e.message)

/-- `useDAOTreasuryStore.addSigner` (dao-treasury.store.ts, lines 85–102):
stores the transaction, refreshes the treasury state, records/re-throws
errors, resets loading last. -/
def storeAddSigner (s : DAOTreasuryStoreState)
    (repoResult : Except RepoError TransactionResult)
    (refreshed : Except String (Option DAOTreasury)) :
    DAOTreasuryStoreState × Except String TransactionResult :=
  let s1 := { s with isLoading := true, errorMsg := none }
  match repoResult with
  | Except.ok r =>
    let s2 := { s1 with lastTransaction := some r }
    let s3 := applyFetchTreasuryState s2 refreshed
    ({ s3 with isLoading := false }, Except.ok r)
  | Except.error e =>
    ({ s1 with errorMsg := some e.message, isLoading := false },
     Except.error e.message)

/-- `useDAOTreasuryStore.createProposal` (dao-treasury.store.ts, lines
105–122): same shape as `addSigner`. -/
def storeCreateProposal (s : DAOTreasuryStoreState)
    (repoResult : Except RepoError TransactionResult)
    (refreshed : Except String (Option DAOTreasury)) :
    DAOTreasuryStoreState × Except String TransactionResult :=
  let s1 := { s with isLoading := true, errorMsg := none }
  match repoResult with
  | Except.ok r =>
    let s2 := { s1 with lastTransaction := some r }
    let s3 := applyFetchTreasuryState s2 refreshed
    ({ s3 with isLoading := false }, Except.ok r)
  | Except.error e =>
    ({ s1 with errorMsg := some e.message, isLoading := false },
     Except.error e.message)

/-- `useDAOTreasuryStore.deposit` (dao-treasury.store.ts, lines 165–182):
same shape as `addSigner`. -/
def storeDeposit (s : DAOTreasuryStoreState)
    (repoResult : Except RepoError TransactionResult)
    (refreshed : Except String (Option DAOTreasury)) :
    DAOTreasuryStoreState × Except String TransactionResult :=
  let s1 := { s with isLoading := true, errorMsg := none }
  match repoResult with
  | Except.ok r =>
    let s2 := { s1 with lastTransaction := some r }
    let s3 := applyFetchTreasuryState s2 refreshed
    ({ s3 with isLoading := false }, Except.ok r)
  | Except.error e =>
    ({ s1 with errorMsg := some e.message, isLoading := false },
     Except.error e.message)

/-- The cached slice of `useSoulboundTicketStore` state touched by the
claims (soulbound-ticket.store.ts). -/
structure SoulboundStoreState where
  events : List Event
  userTickets : List Ticket
  hasOptedIn : Bool
  isLoading : Bool
  errorMsg : Option String
  lastTransaction : Option TransactionResult
deriving DecidableEq, Repr

/-- The replace-if-present-else-append cache update of
`useSoulboundTicketStore.fetchEvent` (soulbound-ticket.store.ts, lines
155–162). -/
def updateEventsCache (events : List Event) (eventId : Nat) (e : Event) :
    List Event :=
  match events.findIdx? (fun x => x.id == eventId) with
  | some i => events.set i e
  | none => events ++ [e]

/-- `useSoulboundTicketStore.fetchEvent` (soulbound-ticket.store.ts, lines
151–168) applied to the repository's result: upserts the fetched event
into the events cache; a `none` result (or a caught error) leaves the
state alone. -/
def applyFetchEvent (s : SoulboundStoreState) (eventId : Nat)
    (fetched : Option Event) : SoulboundStoreState :=
  match fetched with
  | none => s
  | some e => { s with events := updateEventsCache s.events eventId e }

/-- `useSoulboundTicketStore.optIn` (soulbound-ticket.store.ts, lines
61–77). -/
def storeTicketOptIn (s : SoulboundStoreState)
    (repoResult : Except RepoError TransactionResult) :
    SoulboundStoreState × Except String TransactionResult :=
  let s1 := { s with isLoading := true, errorMsg := none }
  match repoResult with
  | Except.ok r =>
    ({ s1 with
        lastTransaction := some r
        hasOptedIn := r.confirmed
        isLoading := false }, Except.ok r)
  | Except.error e =>
    ({ s1 with errorMsg := some e.message, isLoading := false },
     Except.error e.message)

/-- `useSoulboundTicketStore.purchaseTicket` (soulbound-ticket.store.ts,
lines 106–123): stores the transaction, re-fetches the event,
records/re-throws errors, resets loading last. -/
def storePurchaseTicket (s : SoulboundStoreState)
    (repoResult : Except RepoError TransactionResult)
    (fetched : Option Event) (eventId : Nat) :
    SoulboundStoreState × Except String TransactionResult :=
  let s1 := { s with isLoading := true, errorMsg := none }
  match repoResult with
  | Except.ok r =>
    let s2 := { s1 with lastTransaction := some r }
    let s3 := applyFetchEvent s2 eventId fetched
    ({ s3 with isLoading := false }, Except.ok r)
  | Except.error e =>
    ({ s1 with errorMsg := some e.message, isLoading := false },
     Except.error e.message)

/-- `useSoulboundTicketStore.checkIn` (soulbound-ticket.store.ts, lines
126–139): stores the transaction on success, no re-fetch. -/
def storeCheckIn (s : SoulboundStoreState)
    (repoResult : Except RepoError TransactionResult) :
    SoulboundStoreState × Except String TransactionResult :=
  let s1 := { s with isLoading := true, errorMsg := none }
  match repoResult with
  | Except.ok r =>
    ({ s1 with lastTransaction := some r, isLoading := false }, Except.ok r)
  | Except.error e =>
    ({ s1 with errorMsg := some e.message, isLoading := false },
     Except.error e.message)

/-- `ExpenseSplit` from `src/domain/models/index.ts`. -/
structure ExpenseSplit where
  appId : Nat
  creator : String
  memberCount : Nat
  expenseCount : Nat
  isSettled : Bool
  totalPool : Nat
deriving DecidableEq, Repr

/-- `ExpenseMember` from `src/domain/models/index.ts`. -/
structure ExpenseMember where
  address : String
  netBalance : Int
  isOwed : Bool
  hasOptedIn : Bool
deriving DecidableEq, Repr

/-- The cached slice of `useExpenseSplitterStore` state touched by the
claims (expense-splitter.store.ts). -/
structure ExpenseSplitterStoreState where
  splitState : Option ExpenseSplit
  memberState : Option ExpenseMember
  hasOptedIn : Bool
  isLoading : Bool
  errorMsg : Option String
  lastTransaction : Option TransactionResult
deriving DecidableEq, Repr

/-- `useExpenseSplitterStore.fetchSplitState` (expense-splitter.store.ts,
lines 109–119) applied to the repository's outcome: replaces the cached
split state on success, records the error on failure, resets loading
either way (it never throws). -/
def applyFetchSplitState (s : ExpenseSplitterStoreState)
    (fetched : Except String (Option ExpenseSplit)) :
    ExpenseSplitterStoreState :=
  match fetched with
  | Except.ok t => { s with splitState := t, isLoading := false }
  | Except.error m => { s with errorMsg := some m, isLoading := false }

/-- `useExpenseSplitterStore.optIn` (expense-splitter.store.ts, lines
50–66). -/
def storeSplitterOptIn (s : ExpenseSplitterStoreState)
    (repoResult : Except RepoError TransactionResult) :
    ExpenseSplitterStoreState × Except String TransactionResult :=
  let s1 := { s with isLoading := true, errorMsg := none }
  match repoResult with
  | Except.ok r =>
    ({ s1 with
        lastTransaction := some r
        hasOptedIn := r.confirmed
        isLoading := false }, Except.ok r)
  | Except.error e =>
    ({ s1 with errorMsg := some e.message, isLoading := false },
     Except.error e.message)

/-- `useExpenseSplitterStore.addExpense` (expense-splitter.store.ts, lines
69–86): stores the transaction, refreshes the split state,
records/re-throws errors, resets loading last. -/
def storeAddExpense (s : ExpenseSplitterStoreState)
    (repoResult : Except RepoError TransactionResult)
    (refreshed : Except String (Option ExpenseSplit)) :
    ExpenseSplitterStoreState × Except String TransactionResult :=
  let s1 := { s with isLoading := true, errorMsg := none }
  match repoResult with
  | Except.ok r =>
    let s2 := { s1 with lastTransaction := some r }
    let s3 := applyFetchSplitState s2 refreshed
    ({ s3 with isLoading := false }, Except.ok r)
  | Except.error e =>
    ({ s1 with errorMsg := some e.message, isLoading := false },
     Except.error e.message)

/-! ### Group submission -/

/-- `Uint8Array.prototype.set(src, offset)` on an adequately sized
buffer. -/
def bufferSet (buf : List Nat) (offset : Nat) (src : List Nat) : List Nat :=
  buf.take offset ++ src ++ buf.drop (offset + src.length)

/-- The atomic-group branch of `AlgorandClientService.sendTransaction`
(wallet.service.ts, lines 233–250): allocates one buffer of the total
length and copies each signed blob in list order at the running offset,
returning the submitted bytes. -/
def sendTransactionGroupBytes (blobs : List (List Nat)) : List Nat :=
  let totalLength := (blobs.map List.length).sum
  let combined := List.replicate totalLength 0
  (blobs.foldl
    (fun (acc : List Nat × Nat) txn =>
      (bufferSet acc.1 acc.2 txn, acc.2 + txn.length))
    (combined, 0)).1

/-! ### Concrete states and inputs used by the witnesses -/

/-- A fetched global state holding one campaign (id 3) that is active at
time 500: goal 100, raised 10, deadline 1000, not cancelled. -/
def sampleState : GlobalState :=
  [("campaign_3_title", StateValue.bytes [72, 105]),
   ("campaign_3_goal", StateValue.uint 100),
   ("campaign_3_raised", StateValue.uint 10),
   ("campaign_3_deadline", StateValue.uint 1000)]

/-- The campaign decoded from `sampleState` at time 500. -/
def sampleCampaign : Campaign :=
  { id := 3
    creator := ""
    beneficiary := ""
    title := "72,105"
    description := ""
    goal := some 100
    raised := some 10
    deadline := some 1000
    status := CampaignStatus.ACTIVE
    milestoneCount := some 0
    donationCount := some 0 }

/-- A fetched global state holding a campaign (id 7) whose title key is
present but whose goal and raised keys are absent, with a far-future
deadline. -/
def sampleStateNoGoal : GlobalState :=
  [("campaign_7_title", StateValue.bytes [84]),
   ("campaign_7_deadline", StateValue.uint 99999)]

/-- The campaign decoded from `sampleStateNoGoal` (at any time before the
deadline, e.g. 5). -/
def sampleCampaignNoGoal : Campaign :=
  { id := 7
    creator := ""
    beneficiary := ""
    title := "84"
    description := ""
    goal := some 0
    raised := some 0
    deadline := some 99999
    status := CampaignStatus.SUCCESSFUL
    milestoneCount := some 0
    donationCount := some 0 }

/-- A fetched global state holding one event (id 2) with price 400. -/
def sampleEventState : GlobalState :=
  [("event_2_name", StateValue.bytes [69, 118]),
   ("event_2_price", StateValue.uint 400),
   ("event_2_max", StateValue.uint 50),
   ("event_2_date", StateValue.uint 1234)]

/-- The event decoded from `sampleEventState`. -/
def sampleEvent : Event :=
  { id := 2
    assetId := some 0
    name := "69,118"
    price := some 400
    maxTickets := some 50
    soldTickets := some 0
    eventDate := some 1234
    venue := ""
    creator := "" }

/-- A loaded wallet account. -/
def sampleWallet : WalletAccount :=
  { address := "SENDER", mnemonic := List.replicate 25 1, createdAt := "t0" }

/-- A node environment for one write. -/
def sampleEnv : RepoEnv :=
  { params := ⟨1000, 10, 1010, "testnet-v1.0"⟩, txId := "TX1", confirmed := true }

/-- A 32-byte ed25519 seed. -/
def sampleSeed : List Nat :=
  (List.range 32).map (fun i => (7 * i + 13) % 256)

/-- A store state with two cached campaigns (ids 3 and 7). -/
def sampleStoreState : FundraisingStoreState :=
  { campaigns := [sampleCampaign, sampleCampaignNoGoal]
    activeCampaigns := [sampleCampaign]
    userDonations := []
    hasOptedIn := true
    isLoading := false
    errorMsg := none
    lastTransaction := none }

/-- A cached proposal (id 4). -/
def sampleProposal : TreasuryProposal :=
  { id := 4
    creator := "C"
    recipient := "R"
    amount := 9
    description := "d"
    status := ProposalStatus.APPROVED
    approvalCount := 2 }

/-- A fresh fetch result for campaign 7 (same id, new raised amount). -/
def upsertCampaignInput : Campaign :=
  { sampleCampaignNoGoal with raised := some 50 }

/-- A fresh fetch result for proposal 4. -/
def upsertProposalInput : TreasuryProposal :=
  { sampleProposal with approvalCount := 3 }

/-! ## Claim theorems -/

/-- **C1.** For every decoded campaign (`getCampaign` succeeding, i.e. the
defining title key present), the derived status is the pure function
`deriveStatusSpec` of (cancelled flag, raised, goal, deadline, now) with
precedence CANCELLED > SUCCESSFUL > FAILED > ACTIVE; and moving `now`
across the deadline while the status was ACTIVE (hence raised < goal)
flips the status to FAILED and to no other state. -/
theorem getCampaign_status_pure_precedence (g : GlobalState)
    (campaignId now : Nat) (c : Campaign)
    (h : getCampaign g campaignId now = some c) :
    c.status = deriveStatusSpec
        (truthy (g.get ("campaign_" ++ toString campaignId ++ "_cancelled")))
        (numOr0 g ("campaign_" ++ toString campaignId ++ "_raised"))
        (numOr0 g ("campaign_" ++ toString campaignId ++ "_goal"))
        (numOr0 g ("campaign_" ++ toString campaignId ++ "_deadline")) now
      ∧ ∀ now2 c2, c.status = CampaignStatus.ACTIVE →
          getCampaign g campaignId now2 = some c2 →
          jsGt (some now2)
            (numOr0 g ("campaign_" ++ toString campaignId ++ "_deadline"))
            = true →
          c2.status = CampaignStatus.FAILED := by
  by_cases ht :
      truthy (g.get ("campaign_" ++ toString campaignId ++ "_title")) = true
  · simp only [getCampaign, ht, if_true, Option.some.injEq] at h
    subst h
    refine ⟨rfl, ?_⟩
    intro now2 c2 hact h2 hgt
    simp only [getCampaign, ht, if_true, Option.some.injEq] at h2
    subst h2
    by_cases hC :
        truthy (g.get ("campaign_" ++ toString campaignId ++ "_cancelled"))
          = true
    · simp [hC] at hact
    · by_cases hS :
          jsGe (numOr0 g ("campaign_" ++ toString campaignId ++ "_raised"))
            (numOr0 g ("campaign_" ++ toString campaignId ++ "_goal"))
            = true
      · simp [hC, hS] at hact
      · simp [hC, hS, hgt]
  · simp [getCampaign, ht] at h

/-- **C1 witness**: the campaign decoded from `sampleState` at time 500. -/
theorem getCampaign_status_pure_precedence_witness :
    sampleCampaign.status = deriveStatusSpec
        (truthy (sampleState.get ("campaign_" ++ toString 3 ++ "_cancelled")))
        (numOr0 sampleState ("campaign_" ++ toString 3 ++ "_raised"))
        (numOr0 sampleState ("campaign_" ++ toString 3 ++ "_goal"))
        (numOr0 sampleState ("campaign_" ++ toString 3 ++ "_deadline")) 500
      ∧ ∀ now2 c2, sampleCampaign.status = CampaignStatus.ACTIVE →
          getCampaign sampleState 3 now2 = some c2 →
          jsGt (some now2)
            (numOr0 sampleState ("campaign_" ++ toString 3 ++ "_deadline"))
            = true →
          c2.status = CampaignStatus.FAILED :=
  getCampaign_status_pure_precedence sampleState 3 500 sampleCampaign
    (by decide)

/-- **C10.** When a campaign's title key is present but its goal and raised
keys are both absent (each defaulting to 0) and its cancelled flag is
unset, `getCampaign` reports the status as SUCCESSFUL (0 ≥ 0) and never as
ACTIVE, whatever the deadline and the current time. -/
theorem getCampaign_absent_goal_successful (g : GlobalState)
    (campaignId now : Nat) (c : Campaign)
    (h : getCampaign g campaignId now = some c)
    (hgoal : g.get ("campaign_" ++ toString campaignId ++ "_goal") = none)
    (hraised : g.get ("campaign_" ++ toString campaignId ++ "_raised") = none)
    (hcanc :
      truthy (g.get ("campaign_" ++ toString campaignId ++ "_cancelled"))
        = false) :
    c.status = CampaignStatus.SUCCESSFUL
      ∧ c.status ≠ CampaignStatus.ACTIVE := by
  simp only [getCampaign] at h
  split at h
  · rw [Option.some.injEq] at h
    subst h
    have hg : numOr0 g ("campaign_" ++ toString campaignId ++ "_goal")
        = some 0 := by
      simp [numOr0, hgoal]
    have hr : numOr0 g ("campaign_" ++ toString campaignId ++ "_raised")
        = some 0 := by
      simp [numOr0, hraised]
    simp [hcanc, hg, hr, jsGe]
  · exact absurd h (by simp)

/-- **C10 witness**: the campaign decoded from `sampleStateNoGoal` at time
5, long before its deadline 99999, is SUCCESSFUL. -/
theorem getCampaign_absent_goal_successful_witness :
    sampleCampaignNoGoal.status = CampaignStatus.SUCCESSFUL
      ∧ sampleCampaignNoGoal.status ≠ CampaignStatus.ACTIVE :=
  getCampaign_absent_goal_successful sampleStateNoGoal 7 5
    sampleCampaignNoGoal (by decide) (by decide) (by decide) (by decide)

/-- The cache upsert with an entry of the searched id leaves the id list
unchanged when it overwrites position `i` found by `findIdx?`. -/
theorem map_id_set_of_findIdx {α : Type} (idOf : α → Nat) (l : List α)
    (cid i : Nat) (c : α) (hcid : idOf c = cid)
    (hfind : l.findIdx? (fun x => idOf x == cid) = some i) :
    (l.set i c).map idOf = l.map idOf := by
  apply List.ext_getElem?
  intro j
  rw [List.map_set]
  by_cases hij : i = j
  · subst hij
    obtain ⟨hlt, hp, -⟩ := List.findIdx?_eq_some_iff_getElem.mp hfind
    rw [List.getElem?_set_self']
    rw [List.getElem?_map, List.getElem?_eq_getElem hlt]
    simp only [Option.map_some', Option.map_eq_map, Function.const_apply]
    rw [hcid]
    exact congrArg some (eq_of_beq hp).symm
  · rw [List.getElem?_set_ne hij]

/-- The cache upsert appends an id not present in the list, preserving
distinctness of ids. -/
theorem nodup_append_of_findIdx_none {α : Type} (idOf : α → Nat)
    (l : List α) (cid : Nat) (c : α) (hcid : idOf c = cid)
    (hfind : l.findIdx? (fun x => idOf x == cid) = none)
    (hn : (l.map idOf).Nodup) : ((l ++ [c]).map idOf).Nodup := by
  rw [List.map_append, List.map_singleton]
  refine List.nodup_append.mpr ⟨hn, List.nodup_singleton _, ?_⟩
  intro a ha hb
  rw [List.mem_singleton] at hb
  obtain ⟨x, hx, rfl⟩ := List.mem_map.mp ha
  have hfalse := List.findIdx?_eq_none_iff.mp hfind x hx
  rw [hb, hcid] at hfalse
  simp at hfalse

/-- **C8.** The store cache update after a successful single-entity fetch
(`fetchCampaign` on the campaigns cache and `fetchProposal` on the
proposals cache) has replace-if-present-else-append semantics keyed by the
entity id: an existing entry with the fetched id is replaced in place
(every other position unchanged), otherwise the entity is appended, and a
cache with pairwise-distinct ids keeps pairwise-distinct ids. -/
theorem cache_upsert_semantics :
    (∀ (l : List Campaign) (cid : Nat) (c : Campaign), c.id = cid →
      (l.findIdx? (fun x => x.id == cid) = none →
        updateCampaignsCache l cid c = l ++ [c]) ∧
      (∀ i, l.findIdx? (fun x => x.id == cid) = some i →
        updateCampaignsCache l cid c = l.set i c ∧
        ∀ j, j ≠ i → (updateCampaignsCache l cid c)[j]? = l[j]?) ∧
      ((l.map (fun x => x.id)).Nodup →
        ((updateCampaignsCache l cid c).map (fun x => x.id)).Nodup)) ∧
    (∀ (l : List TreasuryProposal) (pid : Nat) (p : TreasuryProposal),
      p.id = pid →
      (l.findIdx? (fun x => x.id == pid) = none →
        updateProposalsCache l pid p = l ++ [p]) ∧
      (∀ i, l.findIdx? (fun x => x.id == pid) = some i →
        updateProposalsCache l pid p = l.set i p ∧
        ∀ j, j ≠ i → (updateProposalsCache l pid p)[j]? = l[j]?) ∧
      ((l.map (fun x => x.id)).Nodup →
        ((updateProposalsCache l pid p).map (fun x => x.id)).Nodup)) := by
  constructor
  · intro l cid c hcid
    refine ⟨?_, ?_, ?_⟩
    · intro hfind
      simp [updateCampaignsCache, hfind]
    · intro i hfind
      refine ⟨by simp [updateCampaignsCache, hfind], ?_⟩
      intro j hj
      simp only [updateCampaignsCache, hfind]
      exact List.getElem?_set_ne (fun h => hj h.symm)
    · intro hn
      rcases hfind : l.findIdx? (fun x => x.id == cid) with _ | i
      · rw [show updateCampaignsCache l cid c = l ++ [c] from by
          simp [updateCampaignsCache, hfind]]
        exact nodup_append_of_findIdx_none (fun x => x.id) l cid c hcid
          hfind hn
      · rw [show updateCampaignsCache l cid c = l.set i c from by
          simp [updateCampaignsCache, hfind]]
        rw [map_id_set_of_findIdx (fun x => x.id) l cid i c hcid hfind]
        exact hn
  · intro l pid p hpid
    refine ⟨?_, ?_, ?_⟩
    · intro hfind
      simp [updateProposalsCache, hfind]
    · intro i hfind
      refine ⟨by simp [updateProposalsCache, hfind], ?_⟩
      intro j hj
      simp only [updateProposalsCache, hfind]
      exact List.getElem?_set_ne (fun h => hj h.symm)
    · intro hn
      rcases hfind : l.findIdx? (fun x => x.id == pid) with _ | i
      · rw [show updateProposalsCache l pid p = l ++ [p] from by
          simp [updateProposalsCache, hfind]]
        exact nodup_append_of_findIdx_none (fun x => x.id) l pid p hpid
          hfind hn
      · rw [show updateProposalsCache l pid p = l.set i p from by
          simp [updateProposalsCache, hfind]]
        rw [map_id_set_of_findIdx (fun x => x.id) l pid i p hpid hfind]
        exact hn

/-- **C8 witness**: upserting a re-fetched campaign 7 into a two-campaign
cache and a re-fetched proposal 4 into a one-proposal cache. -/
theorem cache_upsert_semantics_witness :
    ((([sampleCampaign, sampleCampaignNoGoal] : List Campaign).findIdx?
        (fun x => x.id == 7) = none →
      updateCampaignsCache [sampleCampaign, sampleCampaignNoGoal] 7
          upsertCampaignInput
        = [sampleCampaign, sampleCampaignNoGoal] ++ [upsertCampaignInput]) ∧
     (∀ i, ([sampleCampaign, sampleCampaignNoGoal] : List Campaign).findIdx?
        (fun x => x.id == 7) = some i →
      updateCampaignsCache [sampleCampaign, sampleCampaignNoGoal] 7
          upsertCampaignInput
        = ([sampleCampaign, sampleCampaignNoGoal] : List Campaign).set i
            upsertCampaignInput ∧
      ∀ j, j ≠ i →
        (updateCampaignsCache [sampleCampaign, sampleCampaignNoGoal] 7
          upsertCampaignInput)[j]?
          = ([sampleCampaign, sampleCampaignNoGoal] : List Campaign)[j]?) ∧
     ((([sampleCampaign, sampleCampaignNoGoal] : List Campaign).map
        (fun x => x.id)).Nodup →
      ((updateCampaignsCache [sampleCampaign, sampleCampaignNoGoal] 7
        upsertCampaignInput).map (fun x => x.id)).Nodup)) ∧
    ((([sampleProposal] : List TreasuryProposal).findIdx?
        (fun x => x.id == 4) = none →
      updateProposalsCache [sampleProposal] 4 upsertProposalInput
        = [sampleProposal] ++ [upsertProposalInput]) ∧
     (∀ i, ([sampleProposal] : List TreasuryProposal).findIdx?
        (fun x => x.id == 4) = some i →
      updateProposalsCache [sampleProposal] 4 upsertProposalInput
        = ([sampleProposal] : List TreasuryProposal).set i
            upsertProposalInput ∧
      ∀ j, j ≠ i →
        (updateProposalsCache [sampleProposal] 4 upsertProposalInput)[j]?
          = ([sampleProposal] : List TreasuryProposal)[j]?) ∧
     ((([sampleProposal] : List TreasuryProposal).map
        (fun x => x.id)).Nodup →
      ((updateProposalsCache [sampleProposal] 4 upsertProposalInput).map
        (fun x => x.id)).Nodup)) :=
  ⟨cache_upsert_semantics.1 [sampleCampaign, sampleCampaignNoGoal] 7
      upsertCampaignInput (by decide),
   cache_upsert_semantics.2 [sampleProposal] 4 upsertProposalInput
      (by decide)⟩

/-- **C9.** Whenever the global-state fetch succeeds, the DAO treasury
`getProposal` returns the fixed placeholder entity — empty creator,
recipient and description, amount 0, approval count 0, status PENDING —
with only the id taken from the argument, regardless of the fetched
state's content. -/
theorem getProposal_returns_placeholder (g : GlobalState) (proposalId : Nat) :
    getProposal g proposalId = some
      { id := proposalId
        creator := ""
        recipient := ""
        amount := 0
        description := ""
        status := ProposalStatus.PENDING
        approvalCount := 0 } := rfl

/-- Folding a conditional-append step whose condition rejects every element
of the list leaves the accumulator unchanged. -/
theorem foldl_eq_of_forall_fix {α β : Type} (f : β → α → β) (l : List α)
    (h : ∀ acc x, x ∈ l → f acc x = acc) : ∀ acc, l.foldl f acc = acc := by
  induction l with
  | nil => intro acc; rfl
  | cons x xs ih =>
    intro acc
    rw [List.foldl_cons, h acc x (List.mem_cons_self x xs)]
    exact ih (fun acc y hy => h acc y (List.mem_cons_of_mem x hy)) acc

/-- **C7 counterexample.** The claim includes `getProposal` among the reads
that return an absent result (`null`) when the requested entity is absent:
in the empty fetched state no proposal exists, yet `getProposal` returns a
non-null placeholder entity. -/
theorem getProposal_absent_not_null :
    getProposal ([] : GlobalState) 5 ≠ none ∧
      getProposal ([] : GlobalState) 5 = some
        { id := 5
          creator := ""
          recipient := ""
          amount := 0
          description := ""
          status := ProposalStatus.PENDING
          approvalCount := 0 } := by
  exact ⟨by decide, rfl⟩

/-- **C7 (amended).** On a fetched state in which the requested entity is
absent, the read operations do not throw: `getCampaign` and `getEvent`
return the absent result (`null`) when their defining key is missing, and
the collection reads return the empty collection when no matching key
exists; `getProposal`, however, returns a non-null placeholder proposal
whose only meaningful field is the id argument. -/
theorem reads_absent_entity (g : GlobalState)
    (campaignId eventId now proposalId nowT : Nat) (address : String)
    (hc : g.get ("campaign_" ++ toString campaignId ++ "_title") = none)
    (he : g.get ("event_" ++ toString eventId ++ "_name") = none)
    (hd : ∀ kv ∈ g.entries, kv.1.startsWith "donation_" = false)
    (htk : ∀ kv ∈ g.entries, kv.1.startsWith "ticket_" = false) :
    getCampaign g campaignId now = none
      ∧ getEvent g eventId = none
      ∧ getUserDonations g address = []
      ∧ getUserTickets g address nowT = []
      ∧ getProposal g proposalId = some
          { id := proposalId
            creator := ""
            recipient := ""
            amount := 0
            description := ""
            status := ProposalStatus.PENDING
            approvalCount := 0 } := by
  refine ⟨?_, ?_, ?_, ?_, rfl⟩
  · simp [getCampaign, hc, truthy]
  · simp [getEvent, he]
  · unfold getUserDonations
    exact foldl_eq_of_forall_fix _ _ (fun acc kv hkv => by simp [hd kv hkv]) []
  · unfold getUserTickets
    exact foldl_eq_of_forall_fix _ _ (fun acc kv hkv => by simp [htk kv hkv]) []

/-- **C7 witness**: all reads on the empty fetched state. -/
theorem reads_absent_entity_witness :
    getCampaign ([] : GlobalState) 1 0 = none
      ∧ getEvent ([] : GlobalState) 1 = none
      ∧ getUserDonations ([] : GlobalState) "A" = []
      ∧ getUserTickets ([] : GlobalState) "A" 0 = []
      ∧ getProposal ([] : GlobalState) 9 = some
          { id := 9
            creator := ""
            recipient := ""
            amount := 0
            description := ""
            status := ProposalStatus.PENDING
            approvalCount := 0 } :=
  reads_absent_entity [] 1 1 0 9 0 "A" (by decide) (by decide)
    (by decide) (by decide)

/-- Copying blobs sequentially into a zero buffer of exactly the remaining
length, starting after an already-written prefix, writes the flattened
blobs after the prefix. -/
theorem bufferFold_append (blobs : List (List Nat)) :
    ∀ (pre buf : List Nat), buf.length = (blobs.map List.length).sum →
      (blobs.foldl
        (fun (acc : List Nat × Nat) txn =>
          (bufferSet acc.1 acc.2 txn, acc.2 + txn.length))
        (pre ++ buf, pre.length)).1 = pre ++ blobs.flatten := by
  induction blobs with
  | nil =>
    intro pre buf h
    simp only [List.map_nil, List.sum_nil] at h
    rw [List.length_eq_zero] at h
    subst h
    simp
  | cons b bs ih =>
    intro pre buf h
    simp only [List.map_cons, List.sum_cons] at h
    rw [List.foldl_cons]
    have hset : bufferSet (pre ++ buf) pre.length b
        = (pre ++ b) ++ buf.drop b.length := by
      unfold bufferSet
      rw [List.take_left]
      rw [← List.drop_drop, List.drop_left]
    have hlen : (buf.drop b.length).length = (bs.map List.length).sum := by
      rw [List.length_drop, h]
      omega
    have hoff : pre.length + b.length = (pre ++ b).length := by
      simp
    rw [hset, hoff]
    rw [ih (pre ++ b) (buf.drop b.length) hlen]
    simp [List.append_assoc]

/-- **C5.** For every non-empty list of signed transaction blobs passed as
a group to `sendTransaction`, the submitted bytes are the concatenation of
the blobs in exactly the list order — nothing inserted, dropped or
reordered. -/
theorem sendTransaction_group_concat (blobs : List (List Nat))
    (_h : blobs ≠ []) :
    sendTransactionGroupBytes blobs = blobs.flatten := by
  unfold sendTransactionGroupBytes
  have h := bufferFold_append blobs []
    (List.replicate ((blobs.map List.length).sum) 0) (by simp)
  simpa using h

/-- **C5 witness**: a three-blob group. -/
theorem sendTransaction_group_concat_witness :
    ([[1, 2], [3], [4, 5, 6]] : List (List Nat)) ≠ [] ∧
      sendTransactionGroupBytes [[1, 2], [3], [4, 5, 6]]
        = List.flatten [[1, 2], [3], [4, 5, 6]] :=
  ⟨by decide,
   sendTransaction_group_concat [[1, 2], [3], [4, 5, 6]] (by decide)⟩

/-- **C2.** The transaction groups built by the multi-step write flows
(`donate`, `purchaseTicket`) have size 2 ≤ 16; after `assignGroupID` the
stamped group identifier is identical on every member; and the signed
submission list equals the construction-order signing of the grouped
transactions — payment first, then application call. -/
theorem multi_step_group_atomic
    (sender : String) (params : SuggestedParams) (campaignId amount : Nat)
    (isAnonymous : Bool) (sk : List Nat) (g : GlobalState) (eventId : Nat)
    (ev : Event) (_hev : getEvent g eventId = some ev) :
    ((donateGrouped sender params campaignId amount isAnonymous).length = 2
      ∧ (donateGrouped sender params campaignId amount isAnonymous).length
          ≤ 16
      ∧ (∀ t ∈ donateGrouped sender params campaignId amount isAnonymous,
          t.group = some
            [TxnBody.pay sender (getApplicationAddress fundraisingAppId)
              (some amount) params,
             TxnBody.appCall sender fundraisingAppId
              (donateArgs campaignId isAnonymous) [] OnComplete.NoOp params])
      ∧ donateSignedGroup sender params campaignId amount isAnonymous sk
          = (donateGrouped sender params campaignId amount isAnonymous).map
              (fun t => signTransaction t sk)
      ∧ (donateSignedGroup sender params campaignId amount isAnonymous
          sk).map (fun s => s.txn.body)
          = [TxnBody.pay sender (getApplicationAddress fundraisingAppId)
              (some amount) params,
             TxnBody.appCall sender fundraisingAppId
              (donateArgs campaignId isAnonymous) [] OnComplete.NoOp params])
    ∧ ((purchaseGrouped sender params eventId ev.price).length = 2
      ∧ (purchaseGrouped sender params eventId ev.price).length ≤ 16
      ∧ (∀ t ∈ purchaseGrouped sender params eventId ev.price,
          t.group = some
            [TxnBody.pay sender
              (getApplicationAddress soulboundTicketAppId) ev.price params,
             TxnBody.appCall sender soulboundTicketAppId
              (purchaseTicketArgs eventId) [] OnComplete.NoOp params])
      ∧ purchaseSignedGroup sender params eventId ev.price sk
          = (purchaseGrouped sender params eventId ev.price).map
              (fun t => signTransaction t sk)
      ∧ (purchaseSignedGroup sender params eventId ev.price sk).map
          (fun s => s.txn.body)
          = [TxnBody.pay sender
              (getApplicationAddress soulboundTicketAppId) ev.price params,
             TxnBody.appCall sender soulboundTicketAppId
              (purchaseTicketArgs eventId) [] OnComplete.NoOp params]) := by
  refine ⟨⟨rfl, ?_, ?_, rfl, rfl⟩, ⟨rfl, ?_, ?_, rfl, rfl⟩⟩
  · show (2 : Nat) ≤ 16
    norm_num
  · intro t ht
    simp only [donateGrouped, assignGroupID, List.map_cons, List.map_nil,
      List.mem_cons, List.not_mem_nil, or_false] at ht
    rcases ht with rfl | rfl <;> rfl
  · show (2 : Nat) ≤ 16
    norm_num
  · intro t ht
    simp only [purchaseGrouped, assignGroupID, List.map_cons, List.map_nil,
      List.mem_cons, List.not_mem_nil, or_false] at ht
    rcases ht with rfl | rfl <;> rfl

/-- **C2 witness**: the donate and ticket-purchase groups for a concrete
sender, params and fetched event state. -/
theorem multi_step_group_atomic_witness :
    ((donateGrouped "SENDER" ⟨1000, 10, 1010, "testnet-v1.0"⟩ 3 5000000
        false).length = 2
      ∧ (donateGrouped "SENDER" ⟨1000, 10, 1010, "testnet-v1.0"⟩ 3 5000000
          false).length ≤ 16
      ∧ (∀ t ∈ donateGrouped "SENDER" ⟨1000, 10, 1010, "testnet-v1.0"⟩ 3
            5000000 false,
          t.group = some
            [TxnBody.pay "SENDER" (getApplicationAddress fundraisingAppId)
              (some 5000000) ⟨1000, 10, 1010, "testnet-v1.0"⟩,
             TxnBody.appCall "SENDER" fundraisingAppId (donateArgs 3 false)
              [] OnComplete.NoOp ⟨1000, 10, 1010, "testnet-v1.0"⟩])
      ∧ donateSignedGroup "SENDER" ⟨1000, 10, 1010, "testnet-v1.0"⟩ 3
          5000000 false [9]
          = (donateGrouped "SENDER" ⟨1000, 10, 1010, "testnet-v1.0"⟩ 3
              5000000 false).map (fun t => signTransaction t [9])
      ∧ (donateSignedGroup "SENDER" ⟨1000, 10, 1010, "testnet-v1.0"⟩ 3
          5000000 false [9]).map (fun s => s.txn.body)
          = [TxnBody.pay "SENDER" (getApplicationAddress fundraisingAppId)
              (some 5000000) ⟨1000, 10, 1010, "testnet-v1.0"⟩,
             TxnBody.appCall "SENDER" fundraisingAppId (donateArgs 3 false)
              [] OnComplete.NoOp ⟨1000, 10, 1010, "testnet-v1.0"⟩])
    ∧ ((purchaseGrouped "SENDER" ⟨1000, 10, 1010, "testnet-v1.0"⟩ 2
          sampleEvent.price).length = 2
      ∧ (purchaseGrouped "SENDER" ⟨1000, 10, 1010, "testnet-v1.0"⟩ 2
          sampleEvent.price).length ≤ 16
      ∧ (∀ t ∈ purchaseGrouped "SENDER" ⟨1000, 10, 1010, "testnet-v1.0"⟩ 2
            sampleEvent.price,
          t.group = some
            [TxnBody.pay "SENDER"
              (getApplicationAddress soulboundTicketAppId)
              sampleEvent.price ⟨1000, 10, 1010, "testnet-v1.0"⟩,
             TxnBody.appCall "SENDER" soulboundTicketAppId
              (purchaseTicketArgs 2) [] OnComplete.NoOp
              ⟨1000, 10, 1010, "testnet-v1.0"⟩])
      ∧ purchaseSignedGroup "SENDER" ⟨1000, 10, 1010, "testnet-v1.0"⟩ 2
          sampleEvent.price [9]
          = (purchaseGrouped "SENDER" ⟨1000, 10, 1010, "testnet-v1.0"⟩ 2
              sampleEvent.price).map (fun t => signTransaction t [9])
      ∧ (purchaseSignedGroup "SENDER" ⟨1000, 10, 1010, "testnet-v1.0"⟩ 2
          sampleEvent.price [9]).map (fun s => s.txn.body)
          = [TxnBody.pay "SENDER"
              (getApplicationAddress soulboundTicketAppId)
              sampleEvent.price ⟨1000, 10, 1010, "testnet-v1.0"⟩,
             TxnBody.appCall "SENDER" soulboundTicketAppId
              (purchaseTicketArgs 2) [] OnComplete.NoOp
              ⟨1000, 10, 1010, "testnet-v1.0"⟩]) :=
  multi_step_group_atomic "SENDER" ⟨1000, 10, 1010, "testnet-v1.0"⟩ 3
    5000000 false [9] sampleEventState 2 sampleEvent (by decide)

/-- **C3.** Every repository write operation invoked while no wallet is
loaded rejects with the no-wallet error before performing any effect — no
params fetch, no transaction built or signed, nothing submitted (empty
effect trace) — and the invoking store action of each listed write
(the four stores' `optIn`, `createCampaign`, `donate`, `claimFunds`,
`requestRefund`, `cancelCampaign`, `addSigner`, `createProposal`,
`deposit`, `purchaseTicket`, `checkIn`, `addExpense`) ends with the
loading flag false, the cached entity collections (and every other cached
field) unchanged, and the error recorded and re-thrown. -/
theorem writes_reject_without_wallet (env : RepoEnv)
    (appId campaignId eventId amount goal deadline : Nat)
    (beneficiary recipient signerAddress : String)
    (title description pdesc edesc : JSString) (isAnonymous : Bool)
    (g : GlobalState) (s : FundraisingStoreState)
    (fetched : Option Campaign) (sd : DAOTreasuryStoreState)
    (st : SoulboundStoreState) (se : ExpenseSplitterStoreState)
    (refreshedCampaigns : Except String (List Campaign))
    (refreshedTreasury : Except String (Option DAOTreasury))
    (fetchedEvent : Option Event)
    (refreshedSplit : Except String (Option ExpenseSplit)) :
    repoOptIn none env appId = (Except.error RepoError.noWallet, [])
      ∧ repoCreateCampaign none env beneficiary title description goal
          deadline = (Except.error RepoError.noWallet, [])
      ∧ repoDonate none env campaignId amount isAnonymous
          = (Except.error RepoError.noWallet, [])
      ∧ repoClaimFunds none env campaignId
          = (Except.error RepoError.noWallet, [])
      ∧ repoRequestRefund none env campaignId
          = (Except.error RepoError.noWallet, [])
      ∧ repoCancelCampaign none env campaignId
          = (Except.error RepoError.noWallet, [])
      ∧ repoAddSigner none env signerAddress
          = (Except.error RepoError.noWallet, [])
      ∧ repoCreateProposal none env recipient amount pdesc
          = (Except.error RepoError.noWallet, [])
      ∧ repoDeposit none env amount = (Except.error RepoError.noWallet, [])
      ∧ repoPurchaseTicket none env g eventId
          = (Except.error RepoError.noWallet, [])
      ∧ repoCheckIn none env eventId = (Except.error RepoError.noWallet, [])
      ∧ repoAddExpense none env amount edesc
          = (Except.error RepoError.noWallet, [])
      ∧ ((storeDonate s (repoDonate none env campaignId amount
            isAnonymous).1 fetched campaignId).1.isLoading = false
        ∧ (storeDonate s (repoDonate none env campaignId amount
            isAnonymous).1 fetched campaignId).1.campaigns = s.campaigns
        ∧ (storeDonate s (repoDonate none env campaignId amount
            isAnonymous).1 fetched campaignId).1.activeCampaigns
            = s.activeCampaigns
        ∧ (storeDonate s (repoDonate none env campaignId amount
            isAnonymous).1 fetched campaignId).1.userDonations
            = s.userDonations
        ∧ (storeDonate s (repoDonate none env campaignId amount
            isAnonymous).1 fetched campaignId).1.errorMsg
            = some RepoError.noWallet.message
        ∧ (storeDonate s (repoDonate none env campaignId amount
            isAnonymous).1 fetched campaignId).2
            = Except.error RepoError.noWallet.message)
      ∧ storeFundraisingOptIn s (repoOptIn none env fundraisingAppId).1
          = ({ s with
               errorMsg := some RepoError.noWallet.message
               isLoading := false },
             Except.error RepoError.noWallet.message)
      ∧ storeCreateCampaign s (repoCreateCampaign none env beneficiary
            title description goal deadline).1 refreshedCampaigns
          = ({ s with
               errorMsg := some RepoError.noWallet.message
               isLoading := false },
             Except.error RepoError.noWallet.message)
      ∧ storeClaimFunds s (repoClaimFunds none env campaignId).1 fetched
            campaignId
          = ({ s with
               errorMsg := some RepoError.noWallet.message
               isLoading := false },
             Except.error RepoError.noWallet.message)
      ∧ storeRequestRefund s (repoRequestRefund none env campaignId).1
          = ({ s with
               errorMsg := some RepoError.noWallet.message
               isLoading := false },
             Except.error RepoError.noWallet.message)
      ∧ storeCancelCampaign s (repoCancelCampaign none env campaignId).1
            refreshedCampaigns
          = ({ s with
               errorMsg := some RepoError.noWallet.message
               isLoading := false },
             Except.error RepoError.noWallet.message)
      ∧ storeTreasuryOptIn sd (repoOptIn none env daoTreasuryAppId).1
          = ({ sd with
               errorMsg := some RepoError.noWallet.message
               isLoading := false },
             Except.error RepoError.noWallet.message)
      ∧ storeAddSigner sd (repoAddSigner none env signerAddress).1
            refreshedTreasury
          = ({ sd with
               errorMsg := some RepoError.noWallet.message
               isLoading := false },
             Except.error RepoError.noWallet.message)
      ∧ storeCreateProposal sd (repoCreateProposal none env recipient
            amount pdesc).1 refreshedTreasury
          = ({ sd with
               errorMsg := some RepoError.noWallet.message
               isLoading := false },
             Except.error RepoError.noWallet.message)
      ∧ storeDeposit sd (repoDeposit none env amount).1 refreshedTreasury
          = ({ sd with
               errorMsg := some RepoError.noWallet.message
               isLoading := false },
             Except.error RepoError.noWallet.message)
      ∧ storeTicketOptIn st (repoOptIn none env soulboundTicketAppId).1
          = ({ st with
               errorMsg := some RepoError.noWallet.message
               isLoading := false },
             Except.error RepoError.noWallet.message)
      ∧ storePurchaseTicket st (repoPurchaseTicket none env g eventId).1
            fetchedEvent eventId
          = ({ st with
               errorMsg := some RepoError.noWallet.message
               isLoading := false },
             Except.error RepoError.noWallet.message)
      ∧ storeCheckIn st (repoCheckIn none env eventId).1
          = ({ st with
               errorMsg := some RepoError.noWallet.message
               isLoading := false },
             Except.error RepoError.noWallet.message)
      ∧ storeSplitterOptIn se (repoOptIn none env expenseSplitterAppId).1
          = ({ se with
               errorMsg := some RepoError.noWallet.message
               isLoading := false },
             Except.error RepoError.noWallet.message)
      ∧ storeAddExpense se (repoAddExpense none env amount edesc).1
            refreshedSplit
          = ({ se with
               errorMsg := some RepoError.noWallet.message
               isLoading := false },
             Except.error RepoError.noWallet.message) :=
  ⟨rfl, rfl, rfl, rfl, rfl, rfl, rfl, rfl, rfl, rfl, rfl, rfl,
   ⟨rfl, rfl, rfl, rfl, rfl, rfl⟩,
   rfl, rfl, rfl, rfl, rfl, rfl, rfl, rfl, rfl, rfl, rfl, rfl, rfl, rfl⟩

/-- `digitsRange` produces `k` digits. -/
theorem digitsRange_length (b k n : Nat) : (digitsRange b k n).length = k := by
  simp [digitsRange]

/-- Peeling the least-significant digit. -/
theorem digitsRange_succ_cons (b k n : Nat) :
    digitsRange b (k + 1) n = n % b :: digitsRange b k (n / b) := by
  unfold digitsRange
  rw [List.range_succ_eq_map, List.map_cons, List.map_map]
  rw [pow_zero, Nat.div_one]
  congr 1
  apply List.map_congr_left
  intro j _
  show n / b ^ (j + 1) % b = (n / b) / b ^ j % b
  rw [pow_succ', ← Nat.div_div_eq_div_mul]

/-- Peeling the most-significant digit. -/
theorem digitsRange_succ_snoc (b k n : Nat) :
    digitsRange b (k + 1) n = digitsRange b k n ++ [n / b ^ k % b] := by
  unfold digitsRange
  rw [List.range_succ, List.map_append, List.map_singleton]

/-- Reading back the digits of a small enough number recovers it. -/
theorem undigits_digitsRange (b : Nat) (hb : 0 < b) :
    ∀ (k n : Nat), n < b ^ k → undigits b (digitsRange b k n) = n := by
  intro k
  induction k with
  | zero =>
    intro n h
    simp only [pow_zero, Nat.lt_one_iff] at h
    subst h
    rfl
  | succ k ih =>
    intro n h
    rw [digitsRange_succ_cons]
    show n % b + b * undigits b (digitsRange b k (n / b)) = n
    rw [ih (n / b) (by
      rw [Nat.div_lt_iff_lt_mul hb]
      rw [← pow_succ]
      exact h)]
    exact Nat.mod_add_div n b

/-- Taking the digits of a digit string's value recovers the string. -/
theorem digitsRange_undigits (b : Nat) (hb : 1 < b) :
    ∀ (l : List Nat), (∀ d ∈ l, d < b) →
      digitsRange b l.length (undigits b l) = l := by
  intro l
  induction l with
  | nil => intro _; rfl
  | cons d ds ih =>
    intro h
    have hd : d < b := h d (List.mem_cons_self d ds)
    rw [List.length_cons, digitsRange_succ_cons]
    have h1 : undigits b (d :: ds) % b = d := by
      show (d + b * undigits b ds) % b = d
      rw [Nat.add_mul_mod_self_left]
      exact Nat.mod_eq_of_lt hd
    have h2 : undigits b (d :: ds) / b = undigits b ds := by
      show (d + b * undigits b ds) / b = undigits b ds
      rw [Nat.add_mul_div_left _ _ (by omega)]
      rw [Nat.div_eq_of_lt hd]
      omega
    rw [h1, h2, ih (fun x hx => h x (List.mem_cons_of_mem d hx))]

/-- A digit string's value is bounded by the base power of its length. -/
theorem undigits_lt (b : Nat) (_hb : 0 < b) :
    ∀ (l : List Nat), (∀ d ∈ l, d < b) → undigits b l < b ^ l.length := by
  intro l
  induction l with
  | nil =>
    intro _
    show 0 < b ^ 0
    simp
  | cons d ds ih =>
    intro h
    have hd : d < b := h d (List.mem_cons_self d ds)
    have hds : undigits b ds < b ^ ds.length :=
      ih (fun x hx => h x (List.mem_cons_of_mem d hx))
    show d + b * undigits b ds < b ^ (ds.length + 1)
    calc d + b * undigits b ds < b + b * undigits b ds := by omega
      _ = b * (undigits b ds + 1) := by ring
      _ ≤ b * b ^ ds.length := Nat.mul_le_mul_left b hds
      _ = b ^ (ds.length + 1) := by rw [pow_succ]; ring

/-- **C6.** Round-trip of wallet creation and import: for every 32-byte
seed drawn by `generateAccount`, the produced mnemonic has exactly 25
words, and recovering an account from that mnemonic
(`recoverFromMnemonic`, as used by import) deterministically yields
exactly the original address (and secret key). -/
theorem wallet_mnemonic_roundtrip (seed : List Nat)
    (hlen : seed.length = 32) (hbytes : ∀ d ∈ seed, d < 256) :
    (generateAccount seed).mnemonic.length = 25
      ∧ recoverFromMnemonic (generateAccount seed).mnemonic
          = some ⟨(generateAccount seed).address,
                  (generateAccount seed).secretKey⟩ := by
  have htake : (seed ++ ed25519PublicKey seed).take 32 = seed := by
    rw [← hlen, List.take_left]
  have hm : (generateAccount seed).mnemonic
      = digitsRange 2048 24 (undigits 256 seed) ++ [mnemonicChecksum seed] := by
    show mnemonicFromSeed ((seed ++ ed25519PublicKey seed).take 32)
      = digitsRange 2048 24 (undigits 256 seed) ++ [mnemonicChecksum seed]
    rw [htake]
    rfl
  have hwordslen : (digitsRange 2048 24 (undigits 256 seed)).length = 24 :=
    digitsRange_length _ _ _
  have hmlen : (generateAccount seed).mnemonic.length = 25 := by
    rw [hm, List.length_append, hwordslen]
    rfl
  refine ⟨hmlen, ?_⟩
  have hN : undigits 256 seed < 256 ^ 32 := by
    have := undigits_lt 256 (by omega) seed hbytes
    rwa [hlen] at this
  have hN2 : undigits 256 seed < 2048 ^ 24 :=
    lt_of_lt_of_le hN (by norm_num)
  have htake24 : (generateAccount seed).mnemonic.take 24
      = digitsRange 2048 24 (undigits 256 seed) := by
    rw [hm]
    exact List.take_left' hwordslen
  have hund : undigits 2048 ((generateAccount seed).mnemonic.take 24)
      = undigits 256 seed := by
    rw [htake24]
    exact undigits_digitsRange 2048 (by omega) 24 _ hN2
  have hbytes33 : digitsRange 256 33
      (undigits 2048 ((generateAccount seed).mnemonic.take 24))
      = seed ++ [0] := by
    rw [hund, digitsRange_succ_snoc]
    have h32 : digitsRange 256 32 (undigits 256 seed) = seed := by
      have := digitsRange_undigits 256 (by omega) seed hbytes
      rwa [hlen] at this
    rw [h32, Nat.div_eq_of_lt hN]
  have hlast : (seed ++ [0]).getD 32 0 = 0 := by
    rw [List.getD_eq_getElem?_getD]
    rw [List.getElem?_append_right (by omega : seed.length ≤ 32)]
    rw [hlen]
    rfl
  have htake32 : (seed ++ [0]).take 32 = seed := by
    rw [← hlen, List.take_left]
  have hcs : (generateAccount seed).mnemonic.getD 24 0
      = mnemonicChecksum seed := by
    rw [hm, List.getD_eq_getElem?_getD]
    rw [List.getElem?_append_right (by omega :
      (digitsRange 2048 24 (undigits 256 seed)).length ≤ 24)]
    rw [hwordslen]
    rfl
  unfold recoverFromMnemonic mnemonicToSecretKey
  rw [if_pos hmlen, hbytes33, if_pos hlast, htake32, hcs, if_pos rfl]
  rfl

/-- **C6 witness**: the round trip on a concrete 32-byte seed. -/
theorem wallet_mnemonic_roundtrip_witness :
    (generateAccount sampleSeed).mnemonic.length = 25
      ∧ recoverFromMnemonic (generateAccount sampleSeed).mnemonic
          = some ⟨(generateAccount sampleSeed).address,
                  (generateAccount sampleSeed).secretKey⟩ :=
  wallet_mnemonic_roundtrip sampleSeed (by decide) (by decide)

/-- A single scalar encodes to at most 4 bytes. -/
theorem utf8Cp_length_le_four (c : Nat) : (utf8Cp c).length ≤ 4 := by
  unfold utf8Cp
  split_ifs <;> simp

/-- A BMP scalar encodes to at most 3 bytes. -/
theorem utf8Cp_length_le_three (c : Nat) (h : c < 65536) :
    (utf8Cp c).length ≤ 3 := by
  unfold utf8Cp
  split_ifs
  all_goals simp_all

/-- The encoder emits at most 3 bytes per UTF-16 code unit. -/
theorem utf8EncodeUnits_length_le : ∀ (l : List Nat),
    (∀ u ∈ l, u < 65536) → (utf8EncodeUnits l).length ≤ 3 * l.length
  | [] => fun _ => by simp [utf8EncodeUnits]
  | [u] => fun h => by
    have hu : u < 65536 := h u (by simp)
    simp only [utf8EncodeUnits]
    split_ifs
    · show (utf8Cp 65533).length ≤ 3 * 1
      decide
    · have := utf8Cp_length_le_three u hu
      simp only [List.length_cons, List.length_nil]
      omega
  | u :: v :: rest => fun h => by
    have hu : u < 65536 := h u (by simp)
    have hrec1 : (utf8EncodeUnits (v :: rest)).length ≤ 3 * (v :: rest).length :=
      utf8EncodeUnits_length_le (v :: rest)
        (fun x hx => h x (List.mem_cons_of_mem u hx))
    have hrec2 : (utf8EncodeUnits rest).length ≤ 3 * rest.length :=
      utf8EncodeUnits_length_le rest
        (fun x hx => h x (List.mem_cons_of_mem u (List.mem_cons_of_mem v hx)))
    have hpair := utf8Cp_length_le_four (65536 + (u - 55296) * 1024 + (v - 56320))
    have hone := utf8Cp_length_le_three u hu
    have hrep : (utf8Cp 65533).length = 3 := by decide
    simp only [utf8EncodeUnits]
    split_ifs <;>
      simp only [List.length_append, List.length_cons] at hrec1 hrec2 ⊢ <;>
      omega

/-- On single-byte (ASCII) code units the encoder is the identity. -/
theorem utf8EncodeUnits_ascii : ∀ (l : List Nat),
    (∀ u ∈ l, u < 128) → utf8EncodeUnits l = l
  | [] => fun _ => rfl
  | [u] => fun h => by
    have hu : u < 128 := h u (by simp)
    simp only [utf8EncodeUnits]
    rw [if_neg (by omega)]
    unfold utf8Cp
    rw [if_pos hu]
  | u :: v :: rest => fun h => by
    have hu : u < 128 := h u (by simp)
    have hrest : utf8EncodeUnits (v :: rest) = v :: rest :=
      utf8EncodeUnits_ascii (v :: rest)
        (fun x hx => h x (List.mem_cons_of_mem u hx))
    simp only [utf8EncodeUnits]
    rw [if_neg (by omega), if_neg (by omega), hrest]
    show utf8Cp u ++ (v :: rest) = u :: v :: rest
    unfold utf8Cp
    rw [if_pos hu]
    rfl

/-- **C4 counterexample.** The claim says a text argument is truncated to
the contract's documented maximum **byte** length (32 bytes for a title):
for a title of 32 copies of U+00A2 (two UTF-8 bytes each), `slice(0, 32)`
leaves the string intact and the argument placed in the transaction is 64
bytes long. -/
theorem text_args_byte_truncation_counterexample :
    ((createCampaignArgs "B" (List.replicate 32 162) [] 0 0).getD 2
        []).length = 64
      ∧ ¬((createCampaignArgs "B" (List.replicate 32 162) [] 0 0).getD 2
          []).length ≤ 32 := by
  constructor
  · decide
  · decide

/-- **C4 (amended).** Each text application argument is the UTF-8 encoding
of the input truncated to the documented maximum counted in UTF-16 code
units, not bytes, and the truncation is silent (the builders are total):
the byte length is only bounded by 3 bytes per allowed unit (96 bytes for
a 32-unit field, 192 for the 64-unit description), and the documented
byte limit does hold for single-byte (ASCII) inputs, for which the
argument is exactly the truncated code-unit sequence. -/
theorem text_args_unit_truncation (beneficiary recipient : String)
    (title description name venue pdesc : JSString)
    (goal deadline price maxTickets eventDate amount : Nat)
    (htitle : ∀ u ∈ title, u < 65536)
    (hdesc : ∀ u ∈ description, u < 65536)
    (hname : ∀ u ∈ name, u < 65536)
    (hvenue : ∀ u ∈ venue, u < 65536)
    (hpdesc : ∀ u ∈ pdesc, u < 65536) :
    ((createCampaignArgs beneficiary title description goal deadline).getD 2
          [] = utf8EncodeUnits (List.take 32 title)
      ∧ (createCampaignArgs beneficiary title description goal
          deadline).getD 3 [] = utf8EncodeUnits (List.take 64 description)
      ∧ (createEventArgs name price maxTickets eventDate venue).getD 1 []
          = utf8EncodeUnits (List.take 32 name)
      ∧ (createEventArgs name price maxTickets eventDate venue).getD 5 []
          = utf8EncodeUnits (List.take 32 venue)
      ∧ (createProposalArgs recipient amount pdesc).getD 3 []
          = utf8EncodeUnits (List.take 32 pdesc))
    ∧ (((createCampaignArgs beneficiary title description goal
            deadline).getD 2 []).length ≤ 96
      ∧ ((createCampaignArgs beneficiary title description goal
            deadline).getD 3 []).length ≤ 192
      ∧ ((createEventArgs name price maxTickets eventDate venue).getD 1
            []).length ≤ 96
      ∧ ((createEventArgs name price maxTickets eventDate venue).getD 5
            []).length ≤ 96
      ∧ ((createProposalArgs recipient amount pdesc).getD 3 []).length
          ≤ 96)
    ∧ ((∀ u ∈ title, u < 128) →
        (createCampaignArgs beneficiary title description goal
            deadline).getD 2 [] = List.take 32 title
          ∧ ((createCampaignArgs beneficiary title description goal
              deadline).getD 2 []).length ≤ 32) := by
  have bound : ∀ (l : List Nat) (n : Nat), (∀ u ∈ l, u < 65536) →
      (utf8EncodeUnits (List.take n l)).length ≤ 3 * n := by
    intro l n hl
    calc (utf8EncodeUnits (List.take n l)).length
        ≤ 3 * (List.take n l).length :=
          utf8EncodeUnits_length_le (List.take n l)
            (fun x hx => hl x (List.take_subset n l hx))
      _ ≤ 3 * n := by
          have := List.length_take_le n l
          omega
  refine ⟨⟨rfl, rfl, rfl, rfl, rfl⟩, ⟨?_, ?_, ?_, ?_, ?_⟩, ?_⟩
  · exact bound title 32 htitle
  · exact bound description 64 hdesc
  · exact bound name 32 hname
  · exact bound venue 32 hvenue
  · exact bound pdesc 32 hpdesc
  · intro hascii
    have hascii32 : ∀ u ∈ List.take 32 title, u < 128 :=
      fun x hx => hascii x (List.take_subset 32 title hx)
    have heq : utf8EncodeUnits (List.take 32 title) = List.take 32 title :=
      utf8EncodeUnits_ascii (List.take 32 title) hascii32
    refine ⟨heq, ?_⟩
    show (utf8EncodeUnits (List.take 32 title)).length ≤ 32
    rw [heq]
    have := List.length_take_le 32 title
    omega

/-- **C4 witness**: concrete ASCII inputs. -/
theorem text_args_unit_truncation_witness :
    ((createCampaignArgs "B" (strUnits "Hi") (strUnits "D") 0 0).getD 2 []
          = utf8EncodeUnits (List.take 32 (strUnits "Hi"))
      ∧ (createCampaignArgs "B" (strUnits "Hi") (strUnits "D") 0 0).getD 3
          [] = utf8EncodeUnits (List.take 64 (strUnits "D"))
      ∧ (createEventArgs (strUnits "N") 1 2 3 (strUnits "V")).getD 1 []
          = utf8EncodeUnits (List.take 32 (strUnits "N"))
      ∧ (createEventArgs (strUnits "N") 1 2 3 (strUnits "V")).getD 5 []
          = utf8EncodeUnits (List.take 32 (strUnits "V"))
      ∧ (createProposalArgs "R" 4 (strUnits "P")).getD 3 []
          = utf8EncodeUnits (List.take 32 (strUnits "P")))
    ∧ (((createCampaignArgs "B" (strUnits "Hi") (strUnits "D") 0 0).getD 2
            []).length ≤ 96
      ∧ ((createCampaignArgs "B" (strUnits "Hi") (strUnits "D") 0 0).getD 3
            []).length ≤ 192
      ∧ ((createEventArgs (strUnits "N") 1 2 3 (strUnits "V")).getD 1
            []).length ≤ 96
      ∧ ((createEventArgs (strUnits "N") 1 2 3 (strUnits "V")).getD 5
            []).length ≤ 96
      ∧ ((createProposalArgs "R" 4 (strUnits "P")).getD 3 []).length ≤ 96)
    ∧ ((createCampaignArgs "B" (strUnits "Hi") (strUnits "D") 0 0).getD 2
          [] = List.take 32 (strUnits "Hi")
      ∧ ((createCampaignArgs "B" (strUnits "Hi") (strUnits "D") 0 0).getD 2
          []).length ≤ 32) := by
  have h := text_args_unit_truncation "B" "R" (strUnits "Hi")
    (strUnits "D") (strUnits "N") (strUnits "V") (strUnits "P") 0 0 1 2 3 4
    (by decide) (by decide) (by decide) (by decide) (by decide)
  exact ⟨h.1, h.2.1, h.2.2 (by decide)⟩

end Cresca
